import Mathlib

/- Verification development for the XstrapOlate cloud resource lifecycle
orchestrator. The definitions below are shallow embeddings of the Go
source (pkg/cloud/aws.go and cmd/cluster.go); line numbers in the doc
comments refer to that source. Provider calls are modelled by explicit
oracles (per-call outcomes) or by a small world state, and the functions
record the calls they issue as event traces. -/

/-- A resource tag, key and value, as in the AWS TagSpecifications. -/
abbrev Tag := String × String

/-- Whether a tag list carries the given key and value pair. -/
def hasTag (tags : List Tag) (k v : String) : Bool :=
  tags.contains (k, v)

/-- Substring test modelling strings.Contains from the Go standard library. -/
def strContains (s pat : String) : Bool :=
  s.data.tails.any (fun t => pat.data.isPrefixOf t)

/- ------------------------------------------------------------------ -/
/- createEC2Instance launch retry loop (aws.go lines 761-831).         -/
/- ------------------------------------------------------------------ -/

/-- The fields of the ec2.RunInstancesInput request built at aws.go
lines 789-814 that the claims are about: MinCount, MaxCount, the
instance profile name and the instance tags. -/
structure RunReq where
  minCount : Nat
  maxCount : Nat
  profileName : String
  tags : List Tag
deriving DecidableEq

/-- Tags attached to the instance by createEC2Instance (aws.go lines
799-814): only Name and xstrapolate-cluster. -/
def instanceTags (name : String) : List Tag :=
  [("Name", name), ("xstrapolate-cluster", name)]

/-- The launch request issued by every attempt of the retry loop
(aws.go lines 789-814): MinCount = MaxCount = 1, fixed profile name. -/
def mkRunReq (name : String) : RunReq :=
  { minCount := 1, maxCount := 1, profileName := "xstrapolate-ssm-profile",
    tags := instanceTags name }

/-- The failure signature checked by the retry loop (aws.go line 821). -/
def invalidProfileSig : String := "Invalid IAM Instance Profile"

/-- maxRetries of the launch loop (aws.go line 786). -/
def ec2MaxRetries : Nat := 6

/-- The retry loop of createEC2Instance (aws.go lines 785-831),
fuel-indexed; the fuel starts at ec2MaxRetries and the attempt index at
0, so the base case of the fuel is never reached from the entry point.
The outcomes oracle gives, for each attempt index, none on launch
success or the error string on launch failure. Returns the list of
issued launch requests and the overall result. -/
def launchAux (name : String) (outcomes : Nat → Option String) :
    Nat → Nat → List RunReq × Except String String
  | 0, _ => ([], Except.error "max retries reached")
  | fuel + 1, retry =>
    let req := mkRunReq name
    match outcomes retry with
    | none => ([req], Except.ok "i-new")
    | some e =>
      if strContains e invalidProfileSig && decide (retry < ec2MaxRetries - 1) then
        let r := launchAux name outcomes fuel (retry + 1)
        (req :: r.1, r.2)
      else ([req], Except.error e)

/-- The launch loop of createEC2Instance entered at retry = 0 with
maxRetries = 6 (aws.go lines 786-831). -/
def createEC2InstanceLoop (name : String) (outcomes : Nat → Option String) :
    List RunReq × Except String String :=
  launchAux name outcomes ec2MaxRetries 0

theorem launchAux_spec (name : String) (outcomes : Nat → Option String) :
    ∀ fuel retry, 0 < fuel → ec2MaxRetries ≤ fuel + retry →
      1 ≤ (launchAux name outcomes fuel retry).1.length ∧
      (launchAux name outcomes fuel retry).1.length ≤ fuel ∧
      (∀ r ∈ (launchAux name outcomes fuel retry).1, r = mkRunReq name) ∧
      (∀ k, k + 1 < (launchAux name outcomes fuel retry).1.length →
        ∃ e, outcomes (retry + k) = some e ∧ strContains e invalidProfileSig = true ∧
          retry + k < ec2MaxRetries - 1) ∧
      ((∃ iid, (launchAux name outcomes fuel retry).2 = Except.ok iid) ↔
        outcomes (retry + ((launchAux name outcomes fuel retry).1.length - 1)) = none) ∧
      (∀ e, (launchAux name outcomes fuel retry).2 = Except.error e →
        outcomes (retry + ((launchAux name outcomes fuel retry).1.length - 1)) = some e ∧
        (strContains e invalidProfileSig = false ∨
          ¬ (retry + ((launchAux name outcomes fuel retry).1.length - 1) < ec2MaxRetries - 1))) := by
  intro fuel
  induction fuel with
  | zero => intro retry h; omega
  | succ fuel ih =>
    intro retry _ h6
    cases houtcome : outcomes retry with
    | none =>
      simp only [launchAux, houtcome]
      refine ⟨by simp, by simp, by simp, ?_, ?_, ?_⟩
      · intro k hk; simp at hk
      · simp [houtcome]
      · intro e he; simp at he
    | some e =>
      by_cases hguard : strContains e invalidProfileSig = true ∧ retry < ec2MaxRetries - 1
      · have hguard2 : (strContains e invalidProfileSig && decide (retry < ec2MaxRetries - 1)) = true := by
          simp [hguard.1, hguard.2]
        have hfuel : 0 < fuel := by
          have := hguard.2
          simp [ec2MaxRetries] at this
          omega
        have hih := ih (retry + 1) hfuel (by omega)
        obtain ⟨ih1, ih2, ih3, ih4, ih5, ih6⟩ := hih
        have hunfold : launchAux name outcomes (fuel + 1) retry =
            (mkRunReq name :: (launchAux name outcomes fuel (retry + 1)).1,
             (launchAux name outcomes fuel (retry + 1)).2) := by
          simp [launchAux, houtcome, hguard2]
        rw [hunfold]
        simp only [List.length_cons]
        refine ⟨by omega, by omega, ?_, ?_, ?_, ?_⟩
        · intro r hr
          rcases List.mem_cons.mp hr with h | h
          · exact h
          · exact ih3 r h
        · intro k hk
          cases k with
          | zero => exact ⟨e, by simpa using houtcome, hguard.1, by simpa using hguard.2⟩
          | succ k2 =>
            have := ih4 k2 (by omega)
            obtain ⟨e2, he2, hs2, hlt2⟩ := this
            exact ⟨e2, by rw [show retry + (k2 + 1) = retry + 1 + k2 by omega]; exact he2,
              hs2, by omega⟩
        · have harith : retry + (Nat.succ (launchAux name outcomes fuel (retry + 1)).1.length - 1) =
              retry + 1 + ((launchAux name outcomes fuel (retry + 1)).1.length - 1) := by
            omega
          rw [harith]
          exact ih5
        · intro e2 he2
          have harith : retry + (Nat.succ (launchAux name outcomes fuel (retry + 1)).1.length - 1) =
              retry + 1 + ((launchAux name outcomes fuel (retry + 1)).1.length - 1) := by
            omega
          rw [harith]
          exact ih6 e2 he2
      · have hguard2 : (strContains e invalidProfileSig && decide (retry < ec2MaxRetries - 1)) = false := by
          rcases Decidable.em (strContains e invalidProfileSig = true) with hs | hs
          · have : ¬ retry < ec2MaxRetries - 1 := fun hlt => hguard ⟨hs, hlt⟩
            simp [hs, this]
          · simp [Bool.not_eq_true] at hs
            simp [hs]
        have hunfold : launchAux name outcomes (fuel + 1) retry =
            ([mkRunReq name], Except.error e) := by
          simp [launchAux, houtcome, hguard2]
        rw [hunfold]
        refine ⟨by simp, by simp [Nat.succ_le_succ], by simp, ?_, ?_, ?_⟩
        · intro k hk; simp at hk
        · simp [houtcome]
        · intro e2 he2
          simp only [Except.error.injEq] at he2
          subst he2
          refine ⟨by simpa using houtcome, ?_⟩
          rcases Decidable.em (strContains e invalidProfileSig = true) with hs | hs
          · right
            simpa using fun hlt => hguard ⟨hs, hlt⟩
          · left
            simpa [Bool.not_eq_true] using hs

theorem range_filter_isNone_one (outcomes : Nat → Option String) (j : Nat)
    (hfail : ∀ i, i < j → (outcomes i).isSome)
    (hok : (outcomes j).isNone) :
    ((List.range (j + 1)).filter (fun k => (outcomes k).isNone)).length = 1 := by
  rw [List.range_succ, List.filter_append]
  have h1 : (List.range j).filter (fun k => (outcomes k).isNone) = [] := by
    apply List.filter_eq_nil_iff.mpr
    intro a ha
    have := hfail a (List.mem_range.mp ha)
    simp [Option.isNone] at *
    cases houtcome : outcomes a with
    | none => rw [houtcome] at this; simp at this
    | some v => simp
  rw [h1]
  simp [hok]

/-- C4: the single-node instance-launch call is retried only when the
failure signature contains the invalid-instance-profile text, for at
most 6 attempts; any failure with a different signature is returned
immediately with no further attempts; every issued request has
MinCount = MaxCount = 1; and a run in which a prefix of attempts fails
with the profile signature and a later attempt succeeds issues exactly
one successful request (the loop exits on the first success). -/
theorem C4_launch_retry (name : String) (outcomes : Nat → Option String) :
    (createEC2InstanceLoop name outcomes).1.length ≤ 6 ∧
    (∀ r ∈ (createEC2InstanceLoop name outcomes).1,
      r.minCount = 1 ∧ r.maxCount = 1 ∧ r.tags = instanceTags name) ∧
    (∀ k, k + 1 < (createEC2InstanceLoop name outcomes).1.length →
      ∃ e, outcomes k = some e ∧ strContains e invalidProfileSig = true) ∧
    (∀ e, (createEC2InstanceLoop name outcomes).2 = Except.error e →
      outcomes ((createEC2InstanceLoop name outcomes).1.length - 1) = some e) ∧
    (∀ j, j < 6 →
      (∀ i, i < j → ∃ e, outcomes i = some e ∧ strContains e invalidProfileSig = true) →
      outcomes j = none →
      (createEC2InstanceLoop name outcomes).1.length = j + 1 ∧
      (∃ iid, (createEC2InstanceLoop name outcomes).2 = Except.ok iid) ∧
      ((List.range (j + 1)).filter (fun k => (outcomes k).isNone)).length = 1) := by
  have hspec := launchAux_spec name outcomes ec2MaxRetries 0 (by simp [ec2MaxRetries]) (by omega)
  obtain ⟨h1, h2, h3, h4, h5, h6⟩ := hspec
  have hloop : createEC2InstanceLoop name outcomes = launchAux name outcomes ec2MaxRetries 0 := rfl
  rw [hloop]
  refine ⟨by simpa [ec2MaxRetries] using h2, ?_, ?_, ?_, ?_⟩
  · intro r hr
    have := h3 r hr
    subst this
    exact ⟨rfl, rfl, rfl⟩
  · intro k hk
    obtain ⟨e, he, hs, _⟩ := h4 k hk
    exact ⟨e, by simpa using he, hs⟩
  · intro e he
    have := h6 e he
    simpa using this.1
  · intro j hj hfails hnone
    set L := (launchAux name outcomes ec2MaxRetries 0).1.length with hL
    have hLpos : 1 ≤ L := h1
    have hLle : L ≤ j + 1 := by
      by_contra hgt
      push_neg at hgt
      obtain ⟨e, he, _⟩ := h4 j (by omega)
      rw [show (0 : Nat) + j = j by omega] at he
      rw [hnone] at he
      exact Option.noConfusion he
    have hLge : j + 1 ≤ L := by
      by_contra hlt
      push_neg at hlt
      have hidx : L - 1 < j := by omega
      obtain ⟨e0, he0, hs0⟩ := hfails (L - 1) hidx
      cases hres : (launchAux name outcomes ec2MaxRetries 0).2 with
      | ok iid =>
        have := h5.mp ⟨iid, hres⟩
        rw [show (0 : Nat) + (L - 1) = L - 1 by omega] at this
        rw [he0] at this
        exact Option.noConfusion this
      | error e =>
        obtain ⟨hsome, hor⟩ := h6 e hres
        rw [show (0 : Nat) + (L - 1) = L - 1 by omega] at hsome
        rw [he0] at hsome
        have heq : e0 = e := by
          simpa using hsome
        subst heq
        rcases hor with hbad | hbad
        · rw [hs0] at hbad; exact Bool.noConfusion hbad
        · simp only [ec2MaxRetries] at hbad
          omega
    have hLeq : L = j + 1 := by omega
    refine ⟨hLeq, ?_, ?_⟩
    · apply h5.mpr
      rw [hLeq]
      simpa using hnone
    · apply range_filter_isNone_one
      · intro i hi
        obtain ⟨e, he, _⟩ := hfails i hi
        simp [he]
      · simp [hnone]

/-- Concrete run exercising C4: the first two attempts fail with the
invalid-instance-profile signature and the third succeeds, so exactly
three requests are issued and exactly one of them succeeds. -/
def c4Outcomes : Nat → Option String :=
  fun i => if i < 2 then some "Invalid IAM Instance Profile: profile not yet propagated" else none

theorem C4_launch_retry_witness :
    (createEC2InstanceLoop "demo" c4Outcomes).1.length = 2 + 1 ∧
    (∃ iid, (createEC2InstanceLoop "demo" c4Outcomes).2 = Except.ok iid) ∧
    ((List.range (2 + 1)).filter (fun k => (c4Outcomes k).isNone)).length = 1 :=
  (C4_launch_retry "demo" c4Outcomes).2.2.2.2 2 (by decide)
    (by
      intro i hi
      refine ⟨"Invalid IAM Instance Profile: profile not yet propagated", ?_, ?_⟩
      · have : i < 2 := hi
        simp [c4Outcomes, this]
      · decide)
    (by simp [c4Outcomes])

/- ------------------------------------------------------------------ -/
/- Identity provisioning error flow (aws.go lines 187-232, 834-893).   -/
/- ------------------------------------------------------------------ -/

/-- Fixed role name used by ensureEKSServiceRole (aws.go line 188). -/
def eksRoleName : String := "xstrapolate-eks-service-role"

/-- Fixed role name used by ensureSSMInstanceProfile (aws.go line 835). -/
def ssmRoleName : String := "xstrapolate-ssm-role"

/-- Fixed profile name used by ensureSSMInstanceProfile (aws.go line 836). -/
def ssmProfileName : String := "xstrapolate-ssm-profile"

/-- The managed policy attached to the SSM role (aws.go line 863). -/
def ssmPolicyArn : String := "arn:aws:iam::aws:policy/AmazonSSMManagedInstanceCore"

/-- The per-call provider results observed by one run of
ensureSSMInstanceProfile, in source order (aws.go lines 852-890):
CreateRole, AttachRolePolicy, CreateInstanceProfile,
AddRoleToInstanceProfile. -/
structure SSMCallResults where
  createRole : Except String Unit
  attachPolicy : Except String Unit
  createProfile : Except String Unit
  addRoleToProfile : Except String Unit

/-- ensureSSMInstanceProfile (aws.go lines 834-893). The CreateRole
result is only logged, whatever its error is (line 857); the
AttachRolePolicy result is only logged (line 866); the
CreateInstanceProfile result is only logged (line 874); the
AddRoleToInstanceProfile failure is fatal unless its message contains
LimitExceeded or EntityAlreadyExists (lines 882-890). -/
def ensureSSMInstanceProfile (r : SSMCallResults) : Except String Unit :=
  match r.createRole, r.attachPolicy, r.createProfile with
  | _, _, _ =>
    match r.addRoleToProfile with
    | Except.ok _ => Except.ok ()
    | Except.error e =>
      if !(strContains e "LimitExceeded") && !(strContains e "EntityAlreadyExists") then
        Except.error ("failed to add role to instance profile: " ++ e)
      else Except.ok ()

/-- The per-call provider results observed by one run of
ensureEKSServiceRole, in source order (aws.go lines 203-231):
CreateRole, AttachRolePolicy, GetCallerIdentity account lookup. -/
structure EKSCallResults where
  createRole : Except String Unit
  attachPolicy : Except String Unit
  getAccountID : Except String String

/-- ensureEKSServiceRole (aws.go lines 187-232). The CreateRole result
is only logged, whatever its error is (line 210); the AttachRolePolicy
result is only logged (line 223); only the account-ID lookup failure is
returned; on success the ARN is built from the fixed role name. -/
def ensureEKSServiceRole (r : EKSCallResults) : Except String String :=
  match r.createRole, r.attachPolicy with
  | _, _ =>
    match r.getAccountID with
    | Except.error e => Except.error ("failed to get account ID: " ++ e)
    | Except.ok acct => Except.ok ("arn:aws:iam::" ++ acct ++ ":role/" ++ eksRoleName)

/-- C5 counterexample: a CreateRole failure whose message carries no
already-exists signature (an access-denied response) is not fatal in
either identity provisioning operation; both still return success, so
the claim that any non-already-exists creation failure is fatal is
false on the code. -/
theorem C5_counterexample :
    ensureSSMInstanceProfile
      { createRole := Except.error "AccessDenied: not authorized to perform iam:CreateRole",
        attachPolicy := Except.ok (), createProfile := Except.ok (),
        addRoleToProfile := Except.ok () } = Except.ok () ∧
    strContains "AccessDenied: not authorized to perform iam:CreateRole"
      "EntityAlreadyExists" = false ∧
    ensureEKSServiceRole
      { createRole := Except.error "AccessDenied: not authorized to perform iam:CreateRole",
        attachPolicy := Except.ok (), getAccountID := Except.ok "123456789012" } =
      Except.ok ("arn:aws:iam::123456789012:role/" ++ eksRoleName) := by
  refine ⟨rfl, by decide, rfl⟩

/-- C5 amended: role-creation failures of every signature are treated
as warnings and the flow continues; the fatal versus tolerated
distinction applies only at the add-role-to-instance-profile step of
ensureSSMInstanceProfile, where LimitExceeded and EntityAlreadyExists
messages are treated as success and any other failure is fatal, and at
the account-ID lookup of ensureEKSServiceRole. -/
theorem C5_amended_role_creation :
    (∀ r₁ r₂ : SSMCallResults, r₁.addRoleToProfile = r₂.addRoleToProfile →
      ensureSSMInstanceProfile r₁ = ensureSSMInstanceProfile r₂) ∧
    (∀ r : SSMCallResults, ∀ e, r.addRoleToProfile = Except.error e →
      strContains e "LimitExceeded" = false → strContains e "EntityAlreadyExists" = false →
      ensureSSMInstanceProfile r =
        Except.error ("failed to add role to instance profile: " ++ e)) ∧
    (∀ r : SSMCallResults, ∀ e, r.addRoleToProfile = Except.error e →
      (strContains e "LimitExceeded" = true ∨ strContains e "EntityAlreadyExists" = true) →
      ensureSSMInstanceProfile r = Except.ok ()) ∧
    (∀ r : SSMCallResults, r.addRoleToProfile = Except.ok () →
      ensureSSMInstanceProfile r = Except.ok ()) ∧
    (∀ r : EKSCallResults, ∀ acct, r.getAccountID = Except.ok acct →
      ensureEKSServiceRole r = Except.ok ("arn:aws:iam::" ++ acct ++ ":role/" ++ eksRoleName)) ∧
    (∀ r : EKSCallResults, ∀ e, r.getAccountID = Except.error e →
      ensureEKSServiceRole r = Except.error ("failed to get account ID: " ++ e)) := by
  refine ⟨?_, ?_, ?_, ?_, ?_, ?_⟩
  · intro r₁ r₂ h
    simp [ensureSSMInstanceProfile, h]
  · intro r e h h1 h2
    simp [ensureSSMInstanceProfile, h, h1, h2]
  · intro r e h hor
    rcases hor with h1 | h1 <;> simp [ensureSSMInstanceProfile, h, h1]
  · intro r h
    simp [ensureSSMInstanceProfile, h]
  · intro r acct h
    simp [ensureEKSServiceRole, h]
  · intro r e h
    simp [ensureEKSServiceRole, h]

theorem C5_amended_role_creation_witness :
    ensureSSMInstanceProfile
      { createRole := Except.ok (), attachPolicy := Except.ok (),
        createProfile := Except.ok (),
        addRoleToProfile := Except.error "EntityAlreadyExists: role already attached" } =
      Except.ok () ∧
    ensureSSMInstanceProfile
      { createRole := Except.ok (), attachPolicy := Except.ok (),
        createProfile := Except.ok (),
        addRoleToProfile := Except.error "ValidationError: bad role name" } =
      Except.error ("failed to add role to instance profile: " ++
        "ValidationError: bad role name") ∧
    ensureEKSServiceRole
      { createRole := Except.ok (), attachPolicy := Except.ok (),
        getAccountID := Except.error "ExpiredToken" } =
      Except.error ("failed to get account ID: " ++ "ExpiredToken") := by
  refine ⟨?_, ?_, ?_⟩
  · exact C5_amended_role_creation.2.2.1 _ "EntityAlreadyExists: role already attached" rfl
      (Or.inr (by decide))
  · exact C5_amended_role_creation.2.1 _ "ValidationError: bad role name" rfl
      (by decide) (by decide)
  · exact C5_amended_role_creation.2.2.2.2.2 _ "ExpiredToken" rfl

/- ------------------------------------------------------------------ -/
/- Bounded-polling waiters (aws.go lines 895-931 and 1378-1422).       -/
/- ------------------------------------------------------------------ -/

/-- One GetInstanceProfile poll result as seen by waitForInstanceProfile
(aws.go lines 901-917): either the profile is found with some number of
attached roles, or the call failed with an error message. -/
inductive ProfilePoll
  | found (arn : String) (roleCount : Nat)
  | failed (msg : String)
deriving DecidableEq

/-- The not-yet-available signatures retried by waitForInstanceProfile
(aws.go line 920). -/
def profileNotFoundSig (msg : String) : Bool :=
  strContains msg "NoSuchEntity" || strContains msg "does not exist"

/-- maxAttempts of waitForInstanceProfile (aws.go line 898). -/
def wfipMaxAttempts : Nat := 12

/-- waitForInstanceProfile (aws.go lines 895-931), fuel-indexed with
the current attempt index; entered with fuel = wfipMaxAttempts and
index 0. Returns (polls performed, seconds slept, result); the loop
sleeps 10 seconds after each not-yet-available poll (line 922). -/
def wfipAux (polls : Nat → ProfilePoll) : Nat → Nat → Nat × Nat × Except String String
  | 0, i => (i, 10 * i, Except.error "timeout waiting for instance profile to be ready")
  | fuel + 1, i =>
    match polls i with
    | ProfilePoll.found arn roleCount =>
      if roleCount > 0 then (i + 1, 10 * i, Except.ok arn)
      else (i + 1, 10 * i, Except.error "instance profile exists but no role is attached")
    | ProfilePoll.failed msg =>
      if profileNotFoundSig msg then wfipAux polls fuel (i + 1)
      else (i + 1, 10 * i, Except.error ("error checking instance profile: " ++ msg))

/-- waitForInstanceProfile entry point (12 attempts maximum). -/
def waitForInstanceProfileRun (polls : Nat → ProfilePoll) : Nat × Nat × Except String String :=
  wfipAux polls wfipMaxAttempts 0

/-- One DescribeVpcEndpoints poll result as seen by
waitForVPCEndpointsDeletion (aws.go lines 1392-1413): either the
returned endpoint states, or a call failure with an error message. -/
inductive EndpointPoll
  | described (states : List String)
  | failed (msg : String)
deriving DecidableEq

/-- The already-gone signatures accepted by waitForVPCEndpointsDeletion
(aws.go lines 1398-1399). -/
def endpointGoneSig (msg : String) : Bool :=
  strContains msg "InvalidVpcEndpointId.NotFound" || strContains msg "does not exist"

/-- maxWait of waitForVPCEndpointsDeletion, in seconds (aws.go line 1380). -/
def epWaitMaxSeconds : Nat := 300

/-- checkInterval of waitForVPCEndpointsDeletion, in seconds (aws.go line 1381). -/
def epWaitIntervalSeconds : Nat := 10

/-- Number of ticker polls fitting in the five-minute deadline. -/
def epWaitMaxTicks : Nat := epWaitMaxSeconds / epWaitIntervalSeconds

/-- waitForVPCEndpointsDeletion (aws.go lines 1378-1422), fuel-indexed
with the current tick index. Each tick describes the endpoints: a
not-found error means all endpoints are gone (success), any other error
is returned immediately, and a description with zero endpoints in a
state other than deleted is success; otherwise the loop continues until
the five-minute deadline expires. Returns (polls performed, result). -/
def epWaitAux (polls : Nat → EndpointPoll) : Nat → Nat → Nat × Except String Unit
  | 0, i => (i, Except.error "timeout waiting for VPC endpoints to be deleted")
  | fuel + 1, i =>
    match polls i with
    | EndpointPoll.failed msg =>
      if endpointGoneSig msg then (i + 1, Except.ok ()) else (i + 1, Except.error msg)
    | EndpointPoll.described states =>
      if (states.filter (fun st => st != "deleted")).length = 0 then (i + 1, Except.ok ())
      else epWaitAux polls fuel (i + 1)

/-- waitForVPCEndpointsDeletion entry point. -/
def waitForVPCEndpointsDeletionRun (polls : Nat → EndpointPoll) : Nat × Except String Unit :=
  epWaitAux polls epWaitMaxTicks 0

theorem wfipAux_timeout (polls : Nat → ProfilePoll) :
    ∀ fuel i, (∀ j, i ≤ j → j < i + fuel →
        ∃ m, polls j = ProfilePoll.failed m ∧ profileNotFoundSig m = true) →
      wfipAux polls fuel i =
        (i + fuel, 10 * (i + fuel), Except.error "timeout waiting for instance profile to be ready") := by
  intro fuel
  induction fuel with
  | zero => intro i h; simp [wfipAux]
  | succ fuel ih =>
    intro i h
    obtain ⟨m, hm, hsig⟩ := h i (le_refl i) (by omega)
    have hrec := ih (i + 1) (by
      intro j hj1 hj2
      exact h j (by omega) (by omega))
    simp only [wfipAux, hm, hsig, if_true]
    rw [hrec]
    refine congrArg₂ Prod.mk (by omega) (congrArg₂ Prod.mk (by ring_nf) rfl)

theorem wfipAux_perm_error (polls : Nat → ProfilePoll) :
    ∀ fuel i k m, i ≤ k → k < i + fuel →
      polls k = ProfilePoll.failed m → profileNotFoundSig m = false →
      (∀ j, i ≤ j → j < k → ∃ m₂, polls j = ProfilePoll.failed m₂ ∧ profileNotFoundSig m₂ = true) →
      wfipAux polls fuel i =
        (k + 1, 10 * k, Except.error ("error checking instance profile: " ++ m)) := by
  intro fuel
  induction fuel with
  | zero => intro i k m h1 h2; omega
  | succ fuel ih =>
    intro i k m h1 h2 hk hsig hpre
    rcases Nat.eq_or_lt_of_le h1 with heq | hlt
    · subst heq
      simp [wfipAux, hk, hsig]
    · obtain ⟨m₂, hm₂, hsig₂⟩ := hpre i (le_refl i) hlt
      simp only [wfipAux, hm₂, hsig₂, if_true]
      exact ih (i + 1) k m (by omega) (by omega) hk hsig
        (fun j hj1 hj2 => hpre j (by omega) hj2)

theorem epWaitAux_timeout (polls : Nat → EndpointPoll) :
    ∀ fuel i, (∀ j, i ≤ j → j < i + fuel →
        ∃ sts, polls j = EndpointPoll.described sts ∧
          (sts.filter (fun st => st != "deleted")).length ≠ 0) →
      epWaitAux polls fuel i =
        (i + fuel, Except.error "timeout waiting for VPC endpoints to be deleted") := by
  intro fuel
  induction fuel with
  | zero => intro i h; simp [epWaitAux]
  | succ fuel ih =>
    intro i h
    obtain ⟨sts, hsts, hne⟩ := h i (le_refl i) (by omega)
    have hrec := ih (i + 1) (fun j hj1 hj2 => h j (by omega) (by omega))
    simp only [epWaitAux, hsts, if_neg hne]
    rw [hrec]
    exact congrArg₂ Prod.mk (by omega) rfl

theorem epWaitAux_perm_error (polls : Nat → EndpointPoll) :
    ∀ fuel i k m, i ≤ k → k < i + fuel →
      polls k = EndpointPoll.failed m → endpointGoneSig m = false →
      (∀ j, i ≤ j → j < k →
        ∃ sts, polls j = EndpointPoll.described sts ∧
          (sts.filter (fun st => st != "deleted")).length ≠ 0) →
      epWaitAux polls fuel i = (k + 1, Except.error m) := by
  intro fuel
  induction fuel with
  | zero => intro i k m h1 h2; omega
  | succ fuel ih =>
    intro i k m h1 h2 hk hsig hpre
    rcases Nat.eq_or_lt_of_le h1 with heq | hlt
    · subst heq
      simp [epWaitAux, hk, hsig]
    · obtain ⟨sts, hsts, hne⟩ := hpre i (le_refl i) hlt
      simp only [epWaitAux, hsts, if_neg hne]
      exact ih (i + 1) k m (by omega) (by omega) hk hsig
        (fun j hj1 hj2 => hpre j (by omega) hj2)

/-- C6: both bounded-polling waiters return a timeout error value
(without raising) when the predicate never becomes ready within the
configured deadline (12 attempts with 10-second sleeps, hence 120
seconds, for the profile waiter; 30 ten-second ticks of the five-minute
deadline for the endpoint waiter), and return immediately on the first
permanent-error poll, having performed no poll past it. -/
theorem C6_bounded_waiters :
    (∀ polls, (∀ i, i < wfipMaxAttempts →
        ∃ m, polls i = ProfilePoll.failed m ∧ profileNotFoundSig m = true) →
      waitForInstanceProfileRun polls =
        (12, 120, Except.error "timeout waiting for instance profile to be ready")) ∧
    (∀ polls k m, k < wfipMaxAttempts →
      polls k = ProfilePoll.failed m → profileNotFoundSig m = false →
      (∀ i, i < k → ∃ m₂, polls i = ProfilePoll.failed m₂ ∧ profileNotFoundSig m₂ = true) →
      waitForInstanceProfileRun polls =
        (k + 1, 10 * k, Except.error ("error checking instance profile: " ++ m))) ∧
    (∀ polls, (∀ i, i < epWaitMaxTicks →
        ∃ sts, polls i = EndpointPoll.described sts ∧
          (sts.filter (fun st => st != "deleted")).length ≠ 0) →
      waitForVPCEndpointsDeletionRun polls =
        (epWaitMaxTicks, Except.error "timeout waiting for VPC endpoints to be deleted")) ∧
    (∀ polls k m, k < epWaitMaxTicks →
      polls k = EndpointPoll.failed m → endpointGoneSig m = false →
      (∀ i, i < k →
        ∃ sts, polls i = EndpointPoll.described sts ∧
          (sts.filter (fun st => st != "deleted")).length ≠ 0) →
      waitForVPCEndpointsDeletionRun polls = (k + 1, Except.error m)) := by
  refine ⟨?_, ?_, ?_, ?_⟩
  · intro polls h
    have := wfipAux_timeout polls wfipMaxAttempts 0 (by
      intro j hj1 hj2
      exact h j (by simpa using hj2))
    simpa [waitForInstanceProfileRun, wfipMaxAttempts] using this
  · intro polls k m hk hpoll hsig hpre
    have := wfipAux_perm_error polls wfipMaxAttempts 0 k m (by omega) (by omega) hpoll hsig
      (fun j hj1 hj2 => hpre j hj2)
    simpa [waitForInstanceProfileRun] using this
  · intro polls h
    have := epWaitAux_timeout polls epWaitMaxTicks 0 (by
      intro j hj1 hj2
      exact h j (by simpa using hj2))
    simpa [waitForVPCEndpointsDeletionRun] using this
  · intro polls k m hk hpoll hsig hpre
    have := epWaitAux_perm_error polls epWaitMaxTicks 0 k m (by omega) (by omega) hpoll hsig
      (fun j hj1 hj2 => hpre j hj2)
    simpa [waitForVPCEndpointsDeletionRun] using this

/-- Concrete runs exercising C6: a profile that never appears times out
after 12 polls and 120 seconds of sleeping; an access-denied poll on
the fourth attempt ends the profile wait immediately after 4 polls; an
endpoint set that never finishes deleting times out after 30 ticks; a
throttling failure on the third tick ends the endpoint wait immediately
after 3 polls. -/
theorem C6_bounded_waiters_witness :
    waitForInstanceProfileRun (fun _ => ProfilePoll.failed "NoSuchEntity: profile missing") =
      (12, 120, Except.error "timeout waiting for instance profile to be ready") ∧
    waitForInstanceProfileRun (fun i =>
        if i < 3 then ProfilePoll.failed "NoSuchEntity: profile missing"
        else ProfilePoll.failed "AccessDenied") =
      (3 + 1, 10 * 3, Except.error ("error checking instance profile: " ++ "AccessDenied")) ∧
    waitForVPCEndpointsDeletionRun (fun _ => EndpointPoll.described ["deleting"]) =
      (epWaitMaxTicks, Except.error "timeout waiting for VPC endpoints to be deleted") ∧
    waitForVPCEndpointsDeletionRun (fun i =>
        if i < 2 then EndpointPoll.described ["deleting"]
        else EndpointPoll.failed "RequestLimitExceeded") =
      (2 + 1, Except.error "RequestLimitExceeded") := by
  refine ⟨?_, ?_, ?_, ?_⟩
  · exact C6_bounded_waiters.1 _ (by
      intro i hi
      exact ⟨"NoSuchEntity: profile missing", rfl, by decide⟩)
  · exact C6_bounded_waiters.2.1 _ 3 "AccessDenied" (by decide)
      (by simp) (by decide)
      (by
        intro i hi
        refine ⟨"NoSuchEntity: profile missing", ?_, by decide⟩
        simp [hi])
  · exact C6_bounded_waiters.2.2.1 _ (by
      intro i hi
      exact ⟨["deleting"], rfl, by decide⟩)
  · exact C6_bounded_waiters.2.2.2 _ 2 "RequestLimitExceeded" (by decide)
      (by simp) (by decide)
      (by
        intro i hi
        refine ⟨["deleting"], ?_, by decide⟩
        simp [hi])


/- ------------------------------------------------------------------ -/
/- Identity provisioning idempotence (aws.go 187-232, 834-893).        -/
/- ------------------------------------------------------------------ -/

/-- Modelled from the spec: the IAM control-plane state, which is
external to the repository. The provider responds EntityAlreadyExists
to duplicate creations and LimitExceeded when an instance profile
already holds a role (spec section 4.3 and Glossary, Adoption). -/
structure IAMState where
  roles : List String
  profiles : List String
  profileRoles : List (String × String)
  attachedPolicies : List (String × String)
deriving DecidableEq

/-- Modelled from the spec: iam.CreateRole rejects an existing name
with an EntityAlreadyExists response. -/
def iamCreateRole (s : IAMState) (name : String) : IAMState × Except String Unit :=
  if name ∈ s.roles then (s, Except.error "EntityAlreadyExists: role already exists")
  else ({ s with roles := name :: s.roles }, Except.ok ())

/-- Modelled from the spec: iam.AttachRolePolicy is idempotent for an
existing role and fails for a missing role. -/
def iamAttachRolePolicy (s : IAMState) (role policy : String) : IAMState × Except String Unit :=
  if role ∈ s.roles then
    if (role, policy) ∈ s.attachedPolicies then (s, Except.ok ())
    else ({ s with attachedPolicies := (role, policy) :: s.attachedPolicies }, Except.ok ())
  else (s, Except.error "NoSuchEntity: role not found")

/-- Modelled from the spec: iam.CreateInstanceProfile rejects an
existing name with an EntityAlreadyExists response. -/
def iamCreateInstanceProfile (s : IAMState) (name : String) : IAMState × Except String Unit :=
  if name ∈ s.profiles then
    (s, Except.error "EntityAlreadyExists: instance profile already exists")
  else ({ s with profiles := name :: s.profiles }, Except.ok ())

/-- Modelled from the spec: iam.AddRoleToInstanceProfile fails with
LimitExceeded when the profile already holds a role and with
NoSuchEntity when the profile is missing. -/
def iamAddRoleToInstanceProfile (s : IAMState) (profile role : String) :
    IAMState × Except String Unit :=
  if profile ∈ s.profiles then
    if ∃ pr ∈ s.profileRoles, pr.1 = profile then
      (s, Except.error "LimitExceeded: cannot exceed quota for roles per instance profile")
    else ({ s with profileRoles := (profile, role) :: s.profileRoles }, Except.ok ())
  else (s, Except.error "NoSuchEntity: instance profile not found")

/-- The handling of the AddRoleToInstanceProfile result in
ensureSSMInstanceProfile (aws.go lines 878-890): a failure is fatal
unless its message contains LimitExceeded or EntityAlreadyExists. -/
def toleratedAddRole (st : IAMState) (r : Except String Unit) : IAMState × Except String Unit :=
  match r with
  | Except.ok _ => (st, Except.ok ())
  | Except.error e =>
    if !(strContains e "LimitExceeded") && !(strContains e "EntityAlreadyExists") then
      (st, Except.error ("failed to add role to instance profile: " ++ e))
    else (st, Except.ok ())

/-- ensureSSMInstanceProfile (aws.go lines 834-893) run against the
provider-state model: CreateRole, AttachRolePolicy and
CreateInstanceProfile results are only logged; an
AddRoleToInstanceProfile failure is fatal unless its message contains
LimitExceeded or EntityAlreadyExists (lines 882-890). -/
def ensureSSMInstanceProfileRun (s : IAMState) : IAMState × Except String Unit :=
  let p1 := iamCreateRole s ssmRoleName
  let p2 := iamAttachRolePolicy p1.1 ssmRoleName ssmPolicyArn
  let p3 := iamCreateInstanceProfile p2.1 ssmProfileName
  let p4 := iamAddRoleToInstanceProfile p3.1 ssmProfileName ssmRoleName
  toleratedAddRole p4.1 p4.2

/-- The managed policy attached to the EKS service role (aws.go line 214). -/
def eksPolicyArn : String := "arn:aws:iam::aws:policy/AmazonEKSClusterPolicy"

/-- ensureEKSServiceRole (aws.go lines 187-232) run against the
provider-state model: CreateRole and AttachRolePolicy results are only
logged, and the returned ARN is built from the account id and the fixed
role name. -/
def ensureEKSServiceRoleRun (s : IAMState) (acct : String) : IAMState × Except String String :=
  let p1 := iamCreateRole s eksRoleName
  let p2 := iamAttachRolePolicy p1.1 eksRoleName eksPolicyArn
  (p2.1, Except.ok ("arn:aws:iam::" ++ acct ++ ":role/" ++ eksRoleName))

theorem limitErrTolerated :
    (!(strContains "LimitExceeded: cannot exceed quota for roles per instance profile"
        "LimitExceeded") &&
     !(strContains "LimitExceeded: cannot exceed quota for roles per instance profile"
        "EntityAlreadyExists")) = false := by
  decide

theorem iamCreateRole_spec (s : IAMState) (name : String) :
    name ∈ (iamCreateRole s name).1.roles ∧
    (iamCreateRole s name).1.profiles = s.profiles ∧
    (iamCreateRole s name).1.profileRoles = s.profileRoles ∧
    (iamCreateRole s name).1.attachedPolicies = s.attachedPolicies ∧
    (∀ x, x ∈ s.roles → x ∈ (iamCreateRole s name).1.roles) := by
  by_cases h : name ∈ s.roles <;>
    simp_all [iamCreateRole]

theorem iamAttachRolePolicy_spec (s : IAMState) (role policy : String)
    (h : role ∈ s.roles) :
    (role, policy) ∈ (iamAttachRolePolicy s role policy).1.attachedPolicies ∧
    (iamAttachRolePolicy s role policy).1.roles = s.roles ∧
    (iamAttachRolePolicy s role policy).1.profiles = s.profiles ∧
    (iamAttachRolePolicy s role policy).1.profileRoles = s.profileRoles := by
  by_cases h2 : (role, policy) ∈ s.attachedPolicies <;>
    simp_all [iamAttachRolePolicy]

theorem iamCreateInstanceProfile_spec (s : IAMState) (name : String) :
    name ∈ (iamCreateInstanceProfile s name).1.profiles ∧
    (iamCreateInstanceProfile s name).1.roles = s.roles ∧
    (iamCreateInstanceProfile s name).1.profileRoles = s.profileRoles ∧
    (iamCreateInstanceProfile s name).1.attachedPolicies = s.attachedPolicies := by
  by_cases h : name ∈ s.profiles <;>
    simp_all [iamCreateInstanceProfile]

theorem iamAddRoleToInstanceProfile_spec (s : IAMState) (profile role : String)
    (h : profile ∈ s.profiles) :
    (∃ pr ∈ (iamAddRoleToInstanceProfile s profile role).1.profileRoles, pr.1 = profile) ∧
    (iamAddRoleToInstanceProfile s profile role).1.roles = s.roles ∧
    (iamAddRoleToInstanceProfile s profile role).1.profiles = s.profiles ∧
    (iamAddRoleToInstanceProfile s profile role).1.attachedPolicies = s.attachedPolicies ∧
    ((iamAddRoleToInstanceProfile s profile role).2 = Except.ok () ∨
     (iamAddRoleToInstanceProfile s profile role).2 =
       Except.error "LimitExceeded: cannot exceed quota for roles per instance profile") := by
  by_cases h2 : ∃ pr ∈ s.profileRoles, pr.1 = profile
  · simp_all [iamAddRoleToInstanceProfile]
  · refine ⟨⟨(profile, role), ?_, rfl⟩, ?_⟩ <;>
      simp_all [iamAddRoleToInstanceProfile]

theorem ensureSSM_post (s : IAMState) :
    (ensureSSMInstanceProfileRun s).2 = Except.ok () ∧
    ssmRoleName ∈ (ensureSSMInstanceProfileRun s).1.roles ∧
    (ssmRoleName, ssmPolicyArn) ∈ (ensureSSMInstanceProfileRun s).1.attachedPolicies ∧
    ssmProfileName ∈ (ensureSSMInstanceProfileRun s).1.profiles ∧
    (∃ pr ∈ (ensureSSMInstanceProfileRun s).1.profileRoles, pr.1 = ssmProfileName) := by
  obtain ⟨a1, a2, a3, a4, a5⟩ := iamCreateRole_spec s ssmRoleName
  obtain ⟨b1, b2, b3, b4⟩ :=
    iamAttachRolePolicy_spec (iamCreateRole s ssmRoleName).1 ssmRoleName ssmPolicyArn a1
  obtain ⟨c1, c2, c3, c4⟩ :=
    iamCreateInstanceProfile_spec
      (iamAttachRolePolicy (iamCreateRole s ssmRoleName).1 ssmRoleName ssmPolicyArn).1
      ssmProfileName
  obtain ⟨d1, d2, d3, d4, d5⟩ :=
    iamAddRoleToInstanceProfile_spec
      (iamCreateInstanceProfile
        (iamAttachRolePolicy (iamCreateRole s ssmRoleName).1 ssmRoleName ssmPolicyArn).1
        ssmProfileName).1
      ssmProfileName ssmRoleName c1
  have hrun : ensureSSMInstanceProfileRun s =
      toleratedAddRole
        (iamAddRoleToInstanceProfile
          (iamCreateInstanceProfile
            (iamAttachRolePolicy (iamCreateRole s ssmRoleName).1 ssmRoleName ssmPolicyArn).1
            ssmProfileName).1
          ssmProfileName ssmRoleName).1
        (iamAddRoleToInstanceProfile
          (iamCreateInstanceProfile
            (iamAttachRolePolicy (iamCreateRole s ssmRoleName).1 ssmRoleName ssmPolicyArn).1
            ssmProfileName).1
          ssmProfileName ssmRoleName).2 := rfl
  have heval : ensureSSMInstanceProfileRun s =
      ((iamAddRoleToInstanceProfile
        (iamCreateInstanceProfile
          (iamAttachRolePolicy (iamCreateRole s ssmRoleName).1 ssmRoleName ssmPolicyArn).1
          ssmProfileName).1
        ssmProfileName ssmRoleName).1, Except.ok ()) := by
    rw [hrun]
    rcases d5 with hok | herr
    · rw [hok]
      rfl
    · rw [herr]
      simp [toleratedAddRole, limitErrTolerated]
  have hstate : (ensureSSMInstanceProfileRun s).1 =
      (iamAddRoleToInstanceProfile
        (iamCreateInstanceProfile
          (iamAttachRolePolicy (iamCreateRole s ssmRoleName).1 ssmRoleName ssmPolicyArn).1
          ssmProfileName).1
        ssmProfileName ssmRoleName).1 := by
    rw [heval]
  have hres : (ensureSSMInstanceProfileRun s).2 = Except.ok () := by
    rw [heval]
  refine ⟨hres, ?_, ?_, ?_, ?_⟩
  · rw [hstate, d2, c2, b2]
    exact a1
  · rw [hstate, d4, c4]
    exact b1
  · rw [hstate, d3]
    exact c1
  · rw [hstate]
    exact d1

theorem ensureSSM_stable (s : IAMState)
    (h1 : ssmRoleName ∈ s.roles)
    (h2 : (ssmRoleName, ssmPolicyArn) ∈ s.attachedPolicies)
    (h3 : ssmProfileName ∈ s.profiles)
    (h4 : ∃ pr ∈ s.profileRoles, pr.1 = ssmProfileName) :
    ensureSSMInstanceProfileRun s = (s, Except.ok ()) := by
  have e1 : iamCreateRole s ssmRoleName =
      (s, Except.error "EntityAlreadyExists: role already exists") := by
    simp [iamCreateRole, h1]
  have e2 : iamAttachRolePolicy s ssmRoleName ssmPolicyArn = (s, Except.ok ()) := by
    simp [iamAttachRolePolicy, h1, h2]
  have e3 : iamCreateInstanceProfile s ssmProfileName =
      (s, Except.error "EntityAlreadyExists: instance profile already exists") := by
    simp [iamCreateInstanceProfile, h3]
  have e4 : iamAddRoleToInstanceProfile s ssmProfileName ssmRoleName =
      (s, Except.error "LimitExceeded: cannot exceed quota for roles per instance profile") := by
    simp [iamAddRoleToInstanceProfile, h3, h4]
  have e5 : toleratedAddRole s
      (Except.error "LimitExceeded: cannot exceed quota for roles per instance profile") =
      (s, Except.ok ()) := by
    simp [toleratedAddRole, limitErrTolerated]
  have hrun : ensureSSMInstanceProfileRun s =
      toleratedAddRole
        (iamAddRoleToInstanceProfile
          (iamCreateInstanceProfile
            (iamAttachRolePolicy (iamCreateRole s ssmRoleName).1 ssmRoleName ssmPolicyArn).1
            ssmProfileName).1
          ssmProfileName ssmRoleName).1
        (iamAddRoleToInstanceProfile
          (iamCreateInstanceProfile
            (iamAttachRolePolicy (iamCreateRole s ssmRoleName).1 ssmRoleName ssmPolicyArn).1
            ssmProfileName).1
          ssmProfileName ssmRoleName).2 := rfl
  rw [hrun]
  simp only [e1, e2, e3, e4]
  exact e5

/-- C7: invoking identity provisioning twice in sequence succeeds both
times, from any provider state; the second ensureSSMInstanceProfileRun
invocation leaves the provider state unchanged (it adopts the existing
role and profile, whose names ssmRoleName and ssmProfileName are fixed
constants), and the two ensureEKSServiceRoleRun invocations return the
same ARN. -/
theorem C7_identity_idempotent (s : IAMState) (acct : String) :
    (ensureSSMInstanceProfileRun s).2 = Except.ok () ∧
    (ensureSSMInstanceProfileRun (ensureSSMInstanceProfileRun s).1).2 = Except.ok () ∧
    ensureSSMInstanceProfileRun (ensureSSMInstanceProfileRun s).1 =
      ((ensureSSMInstanceProfileRun s).1, Except.ok ()) ∧
    (ensureEKSServiceRoleRun s acct).2 =
      Except.ok ("arn:aws:iam::" ++ acct ++ ":role/" ++ eksRoleName) ∧
    (ensureEKSServiceRoleRun (ensureEKSServiceRoleRun s acct).1 acct).2 =
      (ensureEKSServiceRoleRun s acct).2 := by
  obtain ⟨hp1, hp2, hp3, hp4, hp5⟩ := ensureSSM_post s
  have hstable := ensureSSM_stable (ensureSSMInstanceProfileRun s).1 hp2 hp3 hp4 hp5
  refine ⟨hp1, ?_, hstable, rfl, rfl⟩
  rw [hstable]

/- ------------------------------------------------------------------ -/
/- Teardown call traces (aws.go lines 1143-1728).                      -/
/- ------------------------------------------------------------------ -/

/-- An EC2 instance as seen by the DescribeInstances filters of
findClusterInstances (aws.go lines 1220-1245). -/
structure EC2Inst where
  instanceId : String
  tags : List Tag
  stateName : String
  vpcId : String
deriving DecidableEq

/-- A VPC as seen by the DescribeVpcs filter of
isXstrapolateManagedVPC (aws.go lines 1262-1277). -/
structure VpcRes where
  vpcId : String
  tags : List Tag
deriving DecidableEq

/-- A VPC endpoint as seen by deleteVPCEndpoints (aws.go 1345-1376). -/
structure EndpointRes where
  vpcEndpointId : String
  vpcId : String
  tags : List Tag
deriving DecidableEq

/-- A NAT gateway as seen by deleteNATGateways (aws.go 1424-1453). -/
structure NatGwRes where
  natGatewayId : String
  vpcId : String
  state : String
deriving DecidableEq

/-- An internet gateway as seen by deleteInternetGateways
(aws.go 1455-1495); vpcId is the attachment VPC. -/
structure IgwRes where
  internetGatewayId : String
  vpcId : String
  tags : List Tag
deriving DecidableEq

/-- A route table as seen by deleteRouteTables (aws.go 1497-1530). -/
structure RtRes where
  routeTableId : String
  vpcId : String
  isMain : Bool
  tags : List Tag
deriving DecidableEq

/-- A security group as seen by deleteSecurityGroups (aws.go 1532-1580). -/
structure SgRes where
  groupId : String
  groupName : String
  vpcId : String
  tags : List Tag
deriving DecidableEq

/-- A subnet as seen by deleteSubnets (aws.go 1582-1625). -/
structure SubnetRes where
  subnetId : String
  vpcId : String
  tags : List Tag
deriving DecidableEq

/-- The provider-side resource inventory that the teardown discovery
calls query; iamRoles backs the GetRole existence check of
deleteEKSRole (aws.go 1692-1701). -/
structure AWSWorld where
  instances : List EC2Inst
  vpcs : List VpcRes
  endpoints : List EndpointRes
  natGateways : List NatGwRes
  igws : List IgwRes
  routeTables : List RtRes
  secGroups : List SgRes
  subnets : List SubnetRes
  iamRoles : List String
deriving DecidableEq

/-- The ownership tag key checked during teardown (the spec writes it
managed-by=xstrapolate; the source uses xstrapolate-managed=true). -/
def managedKey : String := "xstrapolate-managed"

/-- A delete, terminate or wait call issued during teardown. -/
inductive DelEvent
  | terminateInstance (instanceId : String)
  | waitInstanceTerminated (instanceId : String)
  | deleteVpcEndpoint (vpcEndpointId : String)
  | waitEndpointsGone (vpcEndpointIds : List String)
  | deleteNatGateway (natGatewayId : String)
  | detachIgw (internetGatewayId vpcId : String)
  | deleteIgw (internetGatewayId : String)
  | deleteRouteTable (routeTableId : String)
  | deleteSecGroup (groupId : String)
  | deleteSubnet (subnetId : String)
  | deleteVpc (vpcId : String)
  | removeRoleFromProfile (profile role : String)
  | deleteInstanceProfile (profile : String)
  | detachRolePolicy (role policy : String)
  | deleteIamRole (role : String)
  | getRole (role : String)
deriving DecidableEq

/-- findClusterInstances (aws.go 1220-1245): DescribeInstances filtered
by tag xstrapolate-cluster = cluster name and instance state in
running, stopped, stopping, pending. No ownership-tag filter. -/
def findClusterInstances (w : AWSWorld) (name : String) : List String :=
  (w.instances.filter (fun i =>
    hasTag i.tags "xstrapolate-cluster" name &&
    (["running", "stopped", "stopping", "pending"].contains i.stateName))).map
    (fun i => i.instanceId)

/-- getInstanceVPC (aws.go 1247-1260). -/
def getInstanceVPC (w : AWSWorld) (iid : String) : Option String :=
  (w.instances.find? (fun i => i.instanceId == iid)).map (fun i => i.vpcId)

/-- isXstrapolateManagedVPC (aws.go 1262-1277): DescribeVpcs for the id
filtered by tag xstrapolate-managed = true. -/
def isXstrapolateManagedVPC (w : AWSWorld) (vid : String) : Bool :=
  w.vpcs.any (fun v => v.vpcId == vid && hasTag v.tags managedKey "true")

/-- The endpoints selected by deleteVPCEndpoints (aws.go 1346-1360):
vpc-id and tag xstrapolate-managed = true. -/
def managedEndpoints (w : AWSWorld) (vid : String) : List EndpointRes :=
  w.endpoints.filter (fun ep => ep.vpcId == vid && hasTag ep.tags managedKey "true")

/-- The NAT gateways selected by deleteNATGateways (aws.go 1425-1439):
vpc-id and state available; there is no ownership-tag filter here. -/
def availableNatGws (w : AWSWorld) (vid : String) : List NatGwRes :=
  w.natGateways.filter (fun n => n.vpcId == vid && n.state == "available")

/-- The internet gateways selected by deleteInternetGateways
(aws.go 1456-1470): attachment.vpc-id and tag xstrapolate-managed. -/
def managedIgws (w : AWSWorld) (vid : String) : List IgwRes :=
  w.igws.filter (fun g => g.vpcId == vid && hasTag g.tags managedKey "true")

/-- The route tables selected by deleteRouteTables (aws.go 1498-1516):
vpc-id, association.main = false and tag xstrapolate-managed. -/
def managedRouteTables (w : AWSWorld) (vid : String) : List RtRes :=
  w.routeTables.filter (fun rt =>
    rt.vpcId == vid && !rt.isMain && hasTag rt.tags managedKey "true")

/-- The security groups selected by deleteSecurityGroups
(aws.go 1533-1547): vpc-id and tag xstrapolate-managed. -/
def managedSgs (w : AWSWorld) (vid : String) : List SgRes :=
  w.secGroups.filter (fun sg => sg.vpcId == vid && hasTag sg.tags managedKey "true")

/-- The subnets selected by deleteSubnets (aws.go 1583-1597):
vpc-id and tag xstrapolate-managed. -/
def managedSubnets (w : AWSWorld) (vid : String) : List SubnetRes :=
  w.subnets.filter (fun sn => sn.vpcId == vid && hasTag sn.tags managedKey "true")

/-- Endpoint-deletion block of deleteVPCResources (aws.go 1283-1286). -/
def epBlock (w : AWSWorld) (vid : String) : List DelEvent :=
  (managedEndpoints w vid).map (fun ep => DelEvent.deleteVpcEndpoint ep.vpcEndpointId)

/-- Bounded wait for endpoint disappearance, entered only when
endpoints were found (aws.go 1289-1301). -/
def waitBlock (w : AWSWorld) (vid : String) : List DelEvent :=
  if (managedEndpoints w vid).isEmpty then []
  else [DelEvent.waitEndpointsGone ((managedEndpoints w vid).map (fun ep => ep.vpcEndpointId))]

/-- NAT-gateway block of deleteVPCResources (aws.go 1303-1307). -/
def natBlock (w : AWSWorld) (vid : String) : List DelEvent :=
  (availableNatGws w vid).map (fun n => DelEvent.deleteNatGateway n.natGatewayId)

/-- Internet-gateway block: detach, then delete (aws.go 1309-1313,
1472-1492). -/
def igwBlock (w : AWSWorld) (vid : String) : List DelEvent :=
  (managedIgws w vid).flatMap (fun g =>
    [DelEvent.detachIgw g.internetGatewayId vid, DelEvent.deleteIgw g.internetGatewayId])

/-- Route-table block of deleteVPCResources (aws.go 1315-1319). -/
def rtBlock (w : AWSWorld) (vid : String) : List DelEvent :=
  (managedRouteTables w vid).map (fun rt => DelEvent.deleteRouteTable rt.routeTableId)

/-- Security-group block; the default group is skipped inside the loop
(aws.go 1549-1553). -/
def sgBlock (w : AWSWorld) (vid : String) : List DelEvent :=
  ((managedSgs w vid).filter (fun sg => !(sg.groupName == "default"))).map
    (fun sg => DelEvent.deleteSecGroup sg.groupId)

/-- Subnet block of deleteVPCResources (aws.go 1327-1331). -/
def subnetBlock (w : AWSWorld) (vid : String) : List DelEvent :=
  (managedSubnets w vid).map (fun sn => DelEvent.deleteSubnet sn.subnetId)

/-- deleteVPCResources (aws.go 1279-1343): the calls issued by one
sweep of a VPC, in source order; the VPC delete itself is last. -/
def deleteVPCResourcesCalls (w : AWSWorld) (vid : String) : List DelEvent :=
  epBlock w vid ++ waitBlock w vid ++ natBlock w vid ++ igwBlock w vid ++
    rtBlock w vid ++ sgBlock w vid ++ subnetBlock w vid ++ [DelEvent.deleteVpc vid]

/-- deleteSSMRole (aws.go 1645-1686): four IAM calls against fixed
names, with no tag or existence check. -/
def deleteSSMRoleCalls : List DelEvent :=
  [DelEvent.removeRoleFromProfile ssmProfileName ssmRoleName,
   DelEvent.deleteInstanceProfile ssmProfileName,
   DelEvent.detachRolePolicy ssmRoleName ssmPolicyArn,
   DelEvent.deleteIamRole ssmRoleName]

/-- deleteEKSRole (aws.go 1688-1723): GetRole first; when the role does
not exist the deletion calls are skipped. -/
def deleteEKSRoleCalls (w : AWSWorld) : List DelEvent :=
  DelEvent.getRole eksRoleName ::
    (if w.iamRoles.contains eksRoleName then
      [DelEvent.detachRolePolicy eksRoleName eksPolicyArn,
       DelEvent.deleteIamRole eksRoleName]
    else [])

/-- The candidate VPC ids collected from the discovered instances
(aws.go 1157-1174); the Go code stores them in a set (map), modelled
as a deduplicated id list. -/
def candidateVpcIds (w : AWSWorld) (iids : List String) : List String :=
  (iids.filterMap (getInstanceVPC w)).dedup

/-- DeleteCluster (aws.go 1143-1218): terminate the discovered
instances, wait for termination, sweep each discovered VPC that
carries the ownership tag, then delete the IAM resources. -/
def deleteClusterCalls (w : AWSWorld) (name : String) : List DelEvent :=
  (findClusterInstances w name).map DelEvent.terminateInstance ++
  (findClusterInstances w name).map DelEvent.waitInstanceTerminated ++
  ((candidateVpcIds w (findClusterInstances w name)).filter
      (fun vid => isXstrapolateManagedVPC w vid)).flatMap (deleteVPCResourcesCalls w) ++
  deleteSSMRoleCalls ++
  deleteEKSRoleCalls w

/-- A running instance that carries the xstrapolate-cluster tag but
not the ownership tag. -/
def c1Instance : EC2Inst :=
  { instanceId := "i-0abc", tags := [("xstrapolate-cluster", "demo")],
    stateName := "running", vpcId := "vpc-0user" }

/-- A world holding only c1Instance. -/
def c1World : AWSWorld :=
  { instances := [c1Instance],
    vpcs := [], endpoints := [], natGateways := [], igws := [], routeTables := [],
    secGroups := [], subnets := [], iamRoles := [] }

/-- C1 counterexample: teardown of cluster demo issues a terminate call
against instance i-0abc although its tag set lacks the ownership tag
xstrapolate-managed = true (and, likewise, the fixed-name IAM role
delete is issued with no tag check), so the claim that no delete or
terminate call is ever issued against a resource lacking the ownership
tag is false on the code. -/
theorem C1_counterexample :
    DelEvent.terminateInstance "i-0abc" ∈ deleteClusterCalls c1World "demo" ∧
    hasTag [("xstrapolate-cluster", "demo")] managedKey "true" = false ∧
    DelEvent.deleteIamRole ssmRoleName ∈ deleteClusterCalls c1World "demo" := by
  refine ⟨?_, by decide, ?_⟩ <;> decide

theorem andE {a b : Bool} (h : (a && b) = true) : a = true ∧ b = true := by
  simp only [Bool.and_eq_true] at h
  exact h

theorem mem_findClusterInstances {w : AWSWorld} {name iid : String}
    (h : iid ∈ findClusterInstances w name) :
    ∃ i, i ∈ w.instances ∧ i.instanceId = iid ∧
      hasTag i.tags "xstrapolate-cluster" name = true := by
  unfold findClusterInstances at h
  obtain ⟨i, hi, heq⟩ := List.mem_map.mp h
  have h2 := List.mem_filter.mp hi
  have h3 := andE h2.2
  exact ⟨i, h2.1, heq, h3.1⟩

theorem mem_managedEndpoints {w : AWSWorld} {vid : String} {ep : EndpointRes}
    (h : ep ∈ managedEndpoints w vid) :
    ep ∈ w.endpoints ∧ ep.vpcId = vid ∧ hasTag ep.tags managedKey "true" = true := by
  have h2 := List.mem_filter.mp h
  have h3 := andE h2.2
  exact ⟨h2.1, eq_of_beq h3.1, h3.2⟩

theorem mem_availableNatGws {w : AWSWorld} {vid : String} {n : NatGwRes}
    (h : n ∈ availableNatGws w vid) :
    n ∈ w.natGateways ∧ n.vpcId = vid ∧ n.state = "available" := by
  have h2 := List.mem_filter.mp h
  have h3 := andE h2.2
  exact ⟨h2.1, eq_of_beq h3.1, eq_of_beq h3.2⟩

theorem mem_managedIgws {w : AWSWorld} {vid : String} {g : IgwRes}
    (h : g ∈ managedIgws w vid) :
    g ∈ w.igws ∧ g.vpcId = vid ∧ hasTag g.tags managedKey "true" = true := by
  have h2 := List.mem_filter.mp h
  have h3 := andE h2.2
  exact ⟨h2.1, eq_of_beq h3.1, h3.2⟩

theorem mem_managedRouteTables {w : AWSWorld} {vid : String} {rt : RtRes}
    (h : rt ∈ managedRouteTables w vid) :
    rt ∈ w.routeTables ∧ rt.vpcId = vid ∧ rt.isMain = false ∧
      hasTag rt.tags managedKey "true" = true := by
  have h2 := List.mem_filter.mp h
  have h3 := andE h2.2
  have h4 := andE h3.1
  refine ⟨h2.1, eq_of_beq h4.1, ?_, h3.2⟩
  cases hm : rt.isMain
  · rfl
  · rw [hm] at h4
    exact absurd h4.2 (by simp)

theorem mem_managedSgs {w : AWSWorld} {vid : String} {sg : SgRes}
    (h : sg ∈ managedSgs w vid) :
    sg ∈ w.secGroups ∧ sg.vpcId = vid ∧ hasTag sg.tags managedKey "true" = true := by
  have h2 := List.mem_filter.mp h
  have h3 := andE h2.2
  exact ⟨h2.1, eq_of_beq h3.1, h3.2⟩

theorem mem_managedSubnets {w : AWSWorld} {vid : String} {sn : SubnetRes}
    (h : sn ∈ managedSubnets w vid) :
    sn ∈ w.subnets ∧ sn.vpcId = vid ∧ hasTag sn.tags managedKey "true" = true := by
  have h2 := List.mem_filter.mp h
  have h3 := andE h2.2
  exact ⟨h2.1, eq_of_beq h3.1, h3.2⟩

theorem mem_deleteVPCResourcesCalls {w : AWSWorld} {vid : String} {e : DelEvent}
    (h : e ∈ deleteVPCResourcesCalls w vid) :
    e ∈ epBlock w vid ∨ e ∈ waitBlock w vid ∨ e ∈ natBlock w vid ∨ e ∈ igwBlock w vid ∨
    e ∈ rtBlock w vid ∨ e ∈ sgBlock w vid ∨ e ∈ subnetBlock w vid ∨
    e = DelEvent.deleteVpc vid := by
  unfold deleteVPCResourcesCalls at h
  simp only [List.append_assoc, List.mem_append, List.mem_singleton] at h
  tauto

theorem mem_deleteClusterCalls {w : AWSWorld} {name : String} {e : DelEvent}
    (h : e ∈ deleteClusterCalls w name) :
    (∃ iid, iid ∈ findClusterInstances w name ∧ e = DelEvent.terminateInstance iid) ∨
    (∃ iid, iid ∈ findClusterInstances w name ∧ e = DelEvent.waitInstanceTerminated iid) ∨
    (∃ vid, isXstrapolateManagedVPC w vid = true ∧ e ∈ deleteVPCResourcesCalls w vid) ∨
    e ∈ deleteSSMRoleCalls ∨ e ∈ deleteEKSRoleCalls w := by
  unfold deleteClusterCalls at h
  simp only [List.append_assoc, List.mem_append] at h
  rcases h with h | h | h | h | h
  · obtain ⟨iid, hmem, heq⟩ := List.mem_map.mp h
    exact Or.inl ⟨iid, hmem, heq.symm⟩
  · obtain ⟨iid, hmem, heq⟩ := List.mem_map.mp h
    exact Or.inr (Or.inl ⟨iid, hmem, heq.symm⟩)
  · obtain ⟨vid, hvid, hin⟩ := List.mem_flatMap.mp h
    have h2 := List.mem_filter.mp hvid
    exact Or.inr (Or.inr (Or.inl ⟨vid, h2.2, hin⟩))
  · exact Or.inr (Or.inr (Or.inr (Or.inl h)))
  · exact Or.inr (Or.inr (Or.inr (Or.inr h)))

/-- The per-call guard of the amended C1 claim: delete calls of the
network resource classes only target resources carrying the ownership
tag; the VPC delete only targets a VPC verified managed; NAT-gateway
deletes carry no tag check of their own but happen only inside a
verified-managed VPC sweep; instance termination is guarded only by
the xstrapolate-cluster name tag; the IAM deletions use the fixed
xstrapolate role and profile names with no tag check; all other calls
(waits, detach, lookups) are unconstrained. -/
def guardOK (w : AWSWorld) (name : String) : DelEvent → Prop
  | DelEvent.terminateInstance iid =>
      ∃ i, i ∈ w.instances ∧ i.instanceId = iid ∧
        hasTag i.tags "xstrapolate-cluster" name = true
  | DelEvent.deleteVpcEndpoint eid =>
      ∃ ep, ep ∈ w.endpoints ∧ ep.vpcEndpointId = eid ∧ hasTag ep.tags managedKey "true" = true
  | DelEvent.deleteNatGateway nid =>
      ∃ n, n ∈ w.natGateways ∧ n.natGatewayId = nid ∧ isXstrapolateManagedVPC w n.vpcId = true
  | DelEvent.deleteIgw gid =>
      ∃ g, g ∈ w.igws ∧ g.internetGatewayId = gid ∧ hasTag g.tags managedKey "true" = true
  | DelEvent.deleteRouteTable rid =>
      ∃ rt, rt ∈ w.routeTables ∧ rt.routeTableId = rid ∧ hasTag rt.tags managedKey "true" = true
  | DelEvent.deleteSecGroup sid =>
      ∃ sg, sg ∈ w.secGroups ∧ sg.groupId = sid ∧ hasTag sg.tags managedKey "true" = true
  | DelEvent.deleteSubnet snid =>
      ∃ sn, sn ∈ w.subnets ∧ sn.subnetId = snid ∧ hasTag sn.tags managedKey "true" = true
  | DelEvent.deleteVpc vid => isXstrapolateManagedVPC w vid = true
  | DelEvent.deleteIamRole role => role = ssmRoleName ∨ role = eksRoleName
  | DelEvent.deleteInstanceProfile profile => profile = ssmProfileName
  | _ => True

/-- C1 amended: every call issued by DeleteCluster satisfies guardOK,
so deletes of VPCs, endpoints, internet gateways, route tables,
security groups and subnets only target resources carrying
xstrapolate-managed = true, while instance termination is guarded only
by the cluster-name tag, NAT-gateway deletes only by the enclosing
managed VPC, and the IAM deletions only by the fixed resource names. -/
theorem C1_amended_tag_guard (w : AWSWorld) (name : String) :
    ∀ e, e ∈ deleteClusterCalls w name → guardOK w name e := by
  intro e he
  rcases mem_deleteClusterCalls he with
    ⟨iid, hiid, rfl⟩ | ⟨iid, hiid, rfl⟩ | ⟨vid, hman, hsw⟩ | hssm | heks
  · exact mem_findClusterInstances hiid
  · trivial
  · rcases mem_deleteVPCResourcesCalls hsw with
      hb | hb | hb | hb | hb | hb | hb | rfl
    · obtain ⟨ep, hep, heq⟩ := List.mem_map.mp hb
      obtain ⟨h1, h2, h3⟩ := mem_managedEndpoints hep
      rw [← heq]
      exact ⟨ep, h1, rfl, h3⟩
    · unfold waitBlock at hb
      split at hb
      · exact absurd hb (List.not_mem_nil _)
      · rw [List.mem_singleton.mp hb]
        trivial
    · obtain ⟨n, hn, heq⟩ := List.mem_map.mp hb
      obtain ⟨h1, h2, h3⟩ := mem_availableNatGws hn
      rw [← heq]
      exact ⟨n, h1, rfl, by rw [h2]; exact hman⟩
    · obtain ⟨g, hg, hin⟩ := List.mem_flatMap.mp hb
      obtain ⟨h1, h2, h3⟩ := mem_managedIgws hg
      simp only [List.mem_cons, List.mem_singleton, List.not_mem_nil, or_false] at hin
      rcases hin with rfl | rfl
      · trivial
      · exact ⟨g, h1, rfl, h3⟩
    · obtain ⟨rt, hrt, heq⟩ := List.mem_map.mp hb
      obtain ⟨h1, h2, h3, h4⟩ := mem_managedRouteTables hrt
      rw [← heq]
      exact ⟨rt, h1, rfl, h4⟩
    · obtain ⟨sg, hsg, heq⟩ := List.mem_map.mp hb
      have hsg2 := List.mem_filter.mp hsg
      obtain ⟨h1, h2, h3⟩ := mem_managedSgs hsg2.1
      rw [← heq]
      exact ⟨sg, h1, rfl, h3⟩
    · obtain ⟨sn, hsn, heq⟩ := List.mem_map.mp hb
      obtain ⟨h1, h2, h3⟩ := mem_managedSubnets hsn
      rw [← heq]
      exact ⟨sn, h1, rfl, h3⟩
    · exact hman
  · unfold deleteSSMRoleCalls at hssm
    simp only [List.mem_cons, List.mem_singleton, List.not_mem_nil, or_false] at hssm
    rcases hssm with rfl | rfl | rfl | rfl
    · trivial
    · rfl
    · trivial
    · exact Or.inl rfl
  · unfold deleteEKSRoleCalls at heks
    rcases List.mem_cons.mp heks with rfl | h2
    · trivial
    · split at h2
      · simp only [List.mem_cons, List.mem_singleton, List.not_mem_nil, or_false] at h2
        rcases h2 with rfl | rfl
        · trivial
        · exact Or.inr rfl
      · exact absurd h2 (List.not_mem_nil _)

/-- A managed VPC with one managed endpoint, internet gateway, route
table, security group, subnet, and one instance tagged for cluster
demo inside it, used to exercise the guard theorem and the sweep
ordering theorem on a concrete world. -/
def c2World : AWSWorld :=
  { instances := [{ instanceId := "i-0m", tags := [("xstrapolate-cluster", "demo"), (managedKey, "true")], stateName := "running", vpcId := "vpc-0m" }],
    vpcs := [{ vpcId := "vpc-0m", tags := [(managedKey, "true")] }],
    endpoints := [{ vpcEndpointId := "vpce-0m", vpcId := "vpc-0m", tags := [(managedKey, "true")] }],
    natGateways := [],
    igws := [{ internetGatewayId := "igw-0m", vpcId := "vpc-0m", tags := [(managedKey, "true")] }],
    routeTables := [{ routeTableId := "rtb-0m", vpcId := "vpc-0m", isMain := false, tags := [(managedKey, "true")] }],
    secGroups := [{ groupId := "sg-0m", groupName := "xstrapolate-ssm-endpoints", vpcId := "vpc-0m", tags := [(managedKey, "true")] }],
    subnets := [{ subnetId := "subnet-0m", vpcId := "vpc-0m", tags := [(managedKey, "true")] }],
    iamRoles := [] }

theorem C1_amended_tag_guard_witness :
    guardOK c2World "demo" (DelEvent.deleteSubnet "subnet-0m") ∧
    guardOK c2World "demo" (DelEvent.deleteVpc "vpc-0m") := by
  constructor
  · exact C1_amended_tag_guard c2World "demo" (DelEvent.deleteSubnet "subnet-0m") (by decide)
  · exact C1_amended_tag_guard c2World "demo" (DelEvent.deleteVpc "vpc-0m") (by decide)

/-- Recognizer for VPC-endpoint delete calls. -/
def isEndpointDelete : DelEvent → Bool
  | DelEvent.deleteVpcEndpoint _ => true
  | _ => false

/-- Recognizer for the bounded endpoint-disappearance wait. -/
def isWaitEndpoints : DelEvent → Bool
  | DelEvent.waitEndpointsGone _ => true
  | _ => false

/-- Recognizer for subnet delete calls. -/
def isSubnetDelete : DelEvent → Bool
  | DelEvent.deleteSubnet _ => true
  | _ => false

/-- Recognizer for the VPC delete call. -/
def isVpcDelete : DelEvent → Bool
  | DelEvent.deleteVpc _ => true
  | _ => false

theorem memOfGetSome {α : Type} {l : List α} {n : Nat} {a : α}
    (h : l[n]? = some a) : a ∈ l := by
  obtain ⟨hlt, hEq⟩ := List.getElem?_eq_some_iff.mp h
  rw [← hEq]
  exact List.getElem_mem hlt

theorem before_of_append {α : Type} (P Q : α → Bool) (xs ys : List α)
    (hx : ∀ e ∈ xs, Q e = false) (hy : ∀ e ∈ ys, P e = false)
    (i j : Nat) (ei ej : α)
    (hgi : (xs ++ ys)[i]? = some ei) (hgj : (xs ++ ys)[j]? = some ej)
    (hP : P ei = true) (hQ : Q ej = true) : i < j := by
  have hi2 : i < xs.length := by
    by_contra hge
    push_neg at hge
    rw [List.getElem?_append_right hge] at hgi
    have hmem : ei ∈ ys := memOfGetSome hgi
    rw [hy _ hmem] at hP
    exact Bool.noConfusion hP
  have hj2 : xs.length ≤ j := by
    by_contra hlt
    push_neg at hlt
    rw [List.getElem?_append_left hlt] at hgj
    have hmem : ej ∈ xs := memOfGetSome hgj
    rw [hx _ hmem] at hQ
    exact Bool.noConfusion hQ
  omega

theorem only_last_of_append {α : Type} (Q : α → Bool) (xs : List α) (b : α)
    (hx : ∀ e ∈ xs, Q e = false)
    (i j : Nat) (ei ej : α)
    (hgi : (xs ++ [b])[i]? = some ei) (hgj : (xs ++ [b])[j]? = some ej)
    (hQ : Q ej = true) (hne : i ≠ j) : i < j := by
  have hj2 : xs.length ≤ j := by
    by_contra hlt
    push_neg at hlt
    rw [List.getElem?_append_left hlt] at hgj
    have hmem : ej ∈ xs := memOfGetSome hgj
    rw [hx _ hmem] at hQ
    exact Bool.noConfusion hQ
  have hjlen : j < (xs ++ [b]).length := (List.getElem?_eq_some_iff.mp hgj).1
  have hilen : i < (xs ++ [b]).length := (List.getElem?_eq_some_iff.mp hgi).1
  rw [List.length_append, List.length_singleton] at hjlen hilen
  omega

theorem front6_not_subnet (w : AWSWorld) (vid : String) :
    ∀ e ∈ epBlock w vid ++ waitBlock w vid ++ natBlock w vid ++ igwBlock w vid ++
        rtBlock w vid ++ sgBlock w vid, isSubnetDelete e = false := by
  intro e he
  simp only [List.mem_append] at he
  rcases he with ((((h | h) | h) | h) | h) | h
  · unfold epBlock at h
    obtain ⟨ep, _, heq⟩ := List.mem_map.mp h
    rw [← heq]
    rfl
  · unfold waitBlock at h
    split at h
    · exact absurd h (List.not_mem_nil _)
    · rw [List.mem_singleton.mp h]
      rfl
  · unfold natBlock at h
    obtain ⟨n, _, heq⟩ := List.mem_map.mp h
    rw [← heq]
    rfl
  · unfold igwBlock at h
    obtain ⟨g, _, hin⟩ := List.mem_flatMap.mp h
    simp only [List.mem_cons, List.mem_singleton, List.not_mem_nil, or_false] at hin
    rcases hin with rfl | rfl <;> rfl
  · unfold rtBlock at h
    obtain ⟨rt, _, heq⟩ := List.mem_map.mp h
    rw [← heq]
    rfl
  · unfold sgBlock at h
    obtain ⟨sg, _, heq⟩ := List.mem_map.mp h
    rw [← heq]
    rfl

theorem front7_not_vpc (w : AWSWorld) (vid : String) :
    ∀ e ∈ epBlock w vid ++ waitBlock w vid ++ natBlock w vid ++ igwBlock w vid ++
        rtBlock w vid ++ sgBlock w vid ++ subnetBlock w vid, isVpcDelete e = false := by
  intro e he
  simp only [List.mem_append] at he
  rcases he with (((((h | h) | h) | h) | h) | h) | h
  · unfold epBlock at h
    obtain ⟨ep, _, heq⟩ := List.mem_map.mp h
    rw [← heq]
    rfl
  · unfold waitBlock at h
    split at h
    · exact absurd h (List.not_mem_nil _)
    · rw [List.mem_singleton.mp h]
      rfl
  · unfold natBlock at h
    obtain ⟨n, _, heq⟩ := List.mem_map.mp h
    rw [← heq]
    rfl
  · unfold igwBlock at h
    obtain ⟨g, _, hin⟩ := List.mem_flatMap.mp h
    simp only [List.mem_cons, List.mem_singleton, List.not_mem_nil, or_false] at hin
    rcases hin with rfl | rfl <;> rfl
  · unfold rtBlock at h
    obtain ⟨rt, _, heq⟩ := List.mem_map.mp h
    rw [← heq]
    rfl
  · unfold sgBlock at h
    obtain ⟨sg, _, heq⟩ := List.mem_map.mp h
    rw [← heq]
    rfl
  · unfold subnetBlock at h
    obtain ⟨sn, _, heq⟩ := List.mem_map.mp h
    rw [← heq]
    rfl

theorem tail_not_ep_wait (w : AWSWorld) (vid : String) :
    ∀ e ∈ subnetBlock w vid ++ [DelEvent.deleteVpc vid],
      isEndpointDelete e = false ∧ isWaitEndpoints e = false := by
  intro e he
  simp only [List.mem_append, List.mem_singleton] at he
  rcases he with h | rfl
  · unfold subnetBlock at h
    obtain ⟨sn, _, heq⟩ := List.mem_map.mp h
    rw [← heq]
    exact ⟨rfl, rfl⟩
  · exact ⟨rfl, rfl⟩

/-- C2: in any sweep of deleteVPCResources, every VPC-endpoint delete
call and the bounded endpoint-disappearance wait occur at a strictly
earlier position than every subnet delete call, the VPC delete call
occurs strictly after every other call of the sweep, and the last call
of the sweep is the VPC delete. -/
theorem C2_teardown_sweep_order (w : AWSWorld) (vid : String) :
    (∀ (i j : Nat) (ei ej : DelEvent), (deleteVPCResourcesCalls w vid)[i]? = some ei →
      (deleteVPCResourcesCalls w vid)[j]? = some ej →
      isEndpointDelete ei = true → isSubnetDelete ej = true → i < j) ∧
    (∀ (i j : Nat) (ei ej : DelEvent), (deleteVPCResourcesCalls w vid)[i]? = some ei →
      (deleteVPCResourcesCalls w vid)[j]? = some ej →
      isWaitEndpoints ei = true → isSubnetDelete ej = true → i < j) ∧
    (∀ (i j : Nat) (ei ej : DelEvent), (deleteVPCResourcesCalls w vid)[i]? = some ei →
      (deleteVPCResourcesCalls w vid)[j]? = some ej →
      isVpcDelete ej = true → i ≠ j → i < j) ∧
    (deleteVPCResourcesCalls w vid).getLast? = some (DelEvent.deleteVpc vid) := by
  have hsplit1 : deleteVPCResourcesCalls w vid =
      (epBlock w vid ++ waitBlock w vid ++ natBlock w vid ++ igwBlock w vid ++
        rtBlock w vid ++ sgBlock w vid) ++
      (subnetBlock w vid ++ [DelEvent.deleteVpc vid]) := by
    unfold deleteVPCResourcesCalls
    simp [List.append_assoc]
  have hsplit2 : deleteVPCResourcesCalls w vid =
      (epBlock w vid ++ waitBlock w vid ++ natBlock w vid ++ igwBlock w vid ++
        rtBlock w vid ++ sgBlock w vid ++ subnetBlock w vid) ++
      [DelEvent.deleteVpc vid] := rfl
  refine ⟨?_, ?_, ?_, ?_⟩
  · intro i j ei ej hgi hgj hP hQ
    rw [hsplit1] at hgi hgj
    exact before_of_append isEndpointDelete isSubnetDelete _ _
      (front6_not_subnet w vid) (fun e he => (tail_not_ep_wait w vid e he).1)
      i j ei ej hgi hgj hP hQ
  · intro i j ei ej hgi hgj hP hQ
    rw [hsplit1] at hgi hgj
    exact before_of_append isWaitEndpoints isSubnetDelete _ _
      (front6_not_subnet w vid) (fun e he => (tail_not_ep_wait w vid e he).2)
      i j ei ej hgi hgj hP hQ
  · intro i j ei ej hgi hgj hQ hne
    rw [hsplit2] at hgi hgj
    exact only_last_of_append isVpcDelete _ _ (front7_not_vpc w vid)
      i j ei ej hgi hgj hQ hne
  · rw [hsplit2]
    exact List.getLast?_concat _

/-- Concrete sweep of c2World: the endpoint delete (position 0) and the
endpoint wait (position 1) precede the subnet delete (position 6), and
the VPC delete is the last call (position 7). -/
theorem C2_teardown_sweep_order_witness :
    (deleteVPCResourcesCalls c2World "vpc-0m")[0]? =
      some (DelEvent.deleteVpcEndpoint "vpce-0m") ∧
    (deleteVPCResourcesCalls c2World "vpc-0m")[6]? =
      some (DelEvent.deleteSubnet "subnet-0m") ∧
    (0 : Nat) < 6 ∧ (1 : Nat) < 6 ∧ (6 : Nat) < 7 ∧
    (deleteVPCResourcesCalls c2World "vpc-0m").getLast? =
      some (DelEvent.deleteVpc "vpc-0m") := by
  refine ⟨by decide, by decide, ?_, ?_, ?_, (C2_teardown_sweep_order c2World "vpc-0m").2.2.2⟩
  · exact (C2_teardown_sweep_order c2World "vpc-0m").1 0 6
      (DelEvent.deleteVpcEndpoint "vpce-0m") (DelEvent.deleteSubnet "subnet-0m")
      (by decide) (by decide) (by decide) (by decide)
  · exact (C2_teardown_sweep_order c2World "vpc-0m").2.1 1 6
      (DelEvent.waitEndpointsGone ["vpce-0m"]) (DelEvent.deleteSubnet "subnet-0m")
      (by decide) (by decide) (by decide) (by decide)
  · exact (C2_teardown_sweep_order c2World "vpc-0m").2.2.1 6 7
      (DelEvent.deleteSubnet "subnet-0m") (DelEvent.deleteVpc "vpc-0m")
      (by decide) (by decide) (by decide) (by decide)

/- ------------------------------------------------------------------ -/
/- Resource creation traces (aws.go lines 270-759).                    -/
/- ------------------------------------------------------------------ -/

/-- A creation-path call issued by the network provisioner; the
resource-creating calls carry the TagSpecifications of the request. -/
inductive CrEvent
  | createVpc (cidr : String) (tags : List Tag)
  | modifyVpcAttr (attr : String)
  | createIgw (tags : List Tag)
  | attachIgw
  | createSubnet (cidr az : String) (tags : List Tag)
  | createRouteTable (tags : List Tag)
  | createRoute
  | associateRouteTable
  | modifySubnetAttr
  | createSecGroup (groupName : String) (tags : List Tag)
  | authorizeIngress
  | createVpcEndpoint (serviceName : String) (tags : List Tag)
deriving DecidableEq

/-- Tags of the EKS-path VPC (aws.go 277-294). -/
def vpcTags : List Tag :=
  [("Name", "xstrapolate-vpc"), (managedKey, "true"),
   ("xstrapolate-resource-type", "vpc"), ("xstrapolate-vpc", "true")]

/-- Tags of the internet gateway (aws.go 336-349). -/
def igwTags : List Tag :=
  [("Name", "xstrapolate-igw"), (managedKey, "true"),
   ("xstrapolate-resource-type", "internet-gateway")]

/-- Tags of public subnet i (aws.go 384-405, zero-based index). -/
def publicSubnetTags (i : Nat) : List Tag :=
  [("Name", "xstrapolate-public-" ++ toString (i + 1)), (managedKey, "true"),
   ("xstrapolate-resource-type", "subnet"), ("xstrapolate-vpc", "true"), ("Type", "public")]

/-- Tags of private subnet i on the EKS path (aws.go 423-444). -/
def privateSubnetTags (i : Nat) : List Tag :=
  [("Name", "xstrapolate-private-" ++ toString (i + 1)), (managedKey, "true"),
   ("xstrapolate-resource-type", "subnet"), ("xstrapolate-vpc", "true"), ("Type", "private")]

/-- Tags of the public route table (aws.go 460-473). -/
def rtTags : List Tag :=
  [("Name", "xstrapolate-public-rt"), (managedKey, "true"),
   ("xstrapolate-resource-type", "route-table")]

/-- Tags of the SSM-path VPC (aws.go 538-555). -/
def ssmVpcTags : List Tag :=
  [("Name", "xstrapolate-ssm-vpc"), (managedKey, "true"),
   ("xstrapolate-resource-type", "vpc"), ("xstrapolate-vpc", "true")]

/-- Tags of private subnet i on the SSM path (aws.go 620-641). -/
def ssmPrivateSubnetTags (i : Nat) : List Tag :=
  [("Name", "xstrapolate-ssm-private-" ++ toString (i + 1)), (managedKey, "true"),
   ("xstrapolate-resource-type", "subnet"), ("xstrapolate-vpc", "true"), ("Type", "private")]

/-- Tags of the SSM endpoint security group (aws.go 673-687). -/
def ssmSgTags : List Tag :=
  [("Name", "xstrapolate-ssm-endpoints"), (managedKey, "true"),
   ("xstrapolate-resource-type", "security-group")]

/-- Tags of the VPC endpoint for a service short name (aws.go 735-748);
the Name value is xstrapolate- followed by the fourth dot-separated
component of the service name, which is the short name. -/
def ssmEndpointTags (svc : String) : List Tag :=
  [("Name", "xstrapolate-" ++ svc), (managedKey, "true"),
   ("xstrapolate-resource-type", "vpc-endpoint")]

/-- createVPCAndSubnets (aws.go 270-520): the issued creation calls and
the result, given the availability-zone names the provider reports.
The availability-zone check (aws.go 327-329) runs after the VPC is
created and before the internet gateway and any subnet is created. -/
def createVPCAndSubnets (azs : List String) : List CrEvent × Except String Unit :=
  let pre := [CrEvent.createVpc "10.0.0.0/16" vpcTags,
              CrEvent.modifyVpcAttr "EnableDnsHostnames"]
  if azs.length < 2 then (pre, Except.error "need at least 2 availability zones")
  else
    (pre ++ [CrEvent.createIgw igwTags, CrEvent.attachIgw] ++
      (List.range 2).flatMap (fun i =>
        [CrEvent.createSubnet ("10.0." ++ toString (i * 10 + 1) ++ ".0/24")
           (azs.getD i "") (publicSubnetTags i),
         CrEvent.createSubnet ("10.0." ++ toString (i * 10 + 2) ++ ".0/24")
           (azs.getD i "") (privateSubnetTags i)]) ++
      [CrEvent.createRouteTable rtTags, CrEvent.createRoute] ++
      (List.range 2).flatMap (fun _ =>
        [CrEvent.associateRouteTable, CrEvent.modifySubnetAttr]),
     Except.ok ())

/-- The SSM service short names used for VPC endpoints (aws.go 717-721). -/
def ssmServiceShortNames : List String := ["ssm", "ssmmessages", "ec2messages"]

/-- createSSMVPCEndpoints (aws.go 662-759): the security group, the
ingress rule, and one interface endpoint per SSM service name built
from the region. -/
def createSSMVPCEndpointsCalls (region : String) : List CrEvent :=
  CrEvent.createSecGroup "xstrapolate-ssm-endpoints" ssmSgTags ::
  CrEvent.authorizeIngress ::
  ssmServiceShortNames.map (fun svc =>
    CrEvent.createVpcEndpoint ("com.amazonaws." ++ region ++ "." ++ svc)
      (ssmEndpointTags svc))

/-- createVPCAndSubnetsForSSM (aws.go 531-660): the issued creation
calls and the result; the availability-zone check accepts a single
zone (aws.go 601-603) and at most two private subnets are created. -/
def createVPCAndSubnetsForSSM (region : String) (azs : List String) :
    List CrEvent × Except String Unit :=
  let pre := [CrEvent.createVpc "10.0.0.0/16" ssmVpcTags,
              CrEvent.modifyVpcAttr "EnableDnsSupport",
              CrEvent.modifyVpcAttr "EnableDnsHostnames"]
  if azs.length < 1 then (pre, Except.error "need at least 1 availability zone")
  else
    (pre ++ (List.range (min 2 azs.length)).flatMap (fun i =>
        [CrEvent.createSubnet ("10.0." ++ toString (i + 10) ++ ".0/24")
          (azs.getD i "") (ssmPrivateSubnetTags i)]) ++
      createSSMVPCEndpointsCalls region,
     Except.ok ())

/-- The TagSpecifications of a resource-creating call, none for calls
that create no taggable resource. -/
def crEventTags : CrEvent → Option (List Tag)
  | CrEvent.createVpc _ tags => some tags
  | CrEvent.createIgw tags => some tags
  | CrEvent.createSubnet _ _ tags => some tags
  | CrEvent.createRouteTable tags => some tags
  | CrEvent.createSecGroup _ tags => some tags
  | CrEvent.createVpcEndpoint _ tags => some tags
  | _ => none

/-- Recognizer for subnet-creation calls. -/
def isCreateSubnet : CrEvent → Bool
  | CrEvent.createSubnet _ _ _ => true
  | _ => false

/-- C3 counterexample: the instance-creation request issued by the
createEC2Instance launch loop carries only the Name and
xstrapolate-cluster tags, lacking both the ownership tag
xstrapolate-managed = true and any xstrapolate-resource-type tag, so
the claim that every resource creation call attaches both is false on
the code. -/
theorem C3_counterexample :
    (createEC2InstanceLoop "demo" (fun _ => none)).1 = [mkRunReq "demo"] ∧
    (mkRunReq "demo").tags = [("Name", "demo"), ("xstrapolate-cluster", "demo")] ∧
    hasTag (mkRunReq "demo").tags managedKey "true" = false ∧
    (mkRunReq "demo").tags.any (fun t => t.1 == "xstrapolate-resource-type") = false := by
  refine ⟨rfl, rfl, by decide, by decide⟩

theorem vpcTags_ok : hasTag vpcTags managedKey "true" = true ∧
    vpcTags.any (fun t => t.1 == "xstrapolate-resource-type") = true := ⟨rfl, rfl⟩

theorem igwTags_ok : hasTag igwTags managedKey "true" = true ∧
    igwTags.any (fun t => t.1 == "xstrapolate-resource-type") = true := ⟨rfl, rfl⟩

theorem publicSubnetTags_ok (i : Nat) : hasTag (publicSubnetTags i) managedKey "true" = true ∧
    (publicSubnetTags i).any (fun t => t.1 == "xstrapolate-resource-type") = true := ⟨rfl, rfl⟩

theorem privateSubnetTags_ok (i : Nat) : hasTag (privateSubnetTags i) managedKey "true" = true ∧
    (privateSubnetTags i).any (fun t => t.1 == "xstrapolate-resource-type") = true := ⟨rfl, rfl⟩

theorem rtTags_ok : hasTag rtTags managedKey "true" = true ∧
    rtTags.any (fun t => t.1 == "xstrapolate-resource-type") = true := ⟨rfl, rfl⟩

theorem ssmVpcTags_ok : hasTag ssmVpcTags managedKey "true" = true ∧
    ssmVpcTags.any (fun t => t.1 == "xstrapolate-resource-type") = true := ⟨rfl, rfl⟩

theorem ssmPrivateSubnetTags_ok (i : Nat) :
    hasTag (ssmPrivateSubnetTags i) managedKey "true" = true ∧
    (ssmPrivateSubnetTags i).any (fun t => t.1 == "xstrapolate-resource-type") = true := ⟨rfl, rfl⟩

theorem ssmSgTags_ok : hasTag ssmSgTags managedKey "true" = true ∧
    ssmSgTags.any (fun t => t.1 == "xstrapolate-resource-type") = true := ⟨rfl, rfl⟩

theorem ssmEndpointTags_ok (svc : String) :
    hasTag (ssmEndpointTags svc) managedKey "true" = true ∧
    (ssmEndpointTags svc).any (fun t => t.1 == "xstrapolate-resource-type") = true := ⟨rfl, rfl⟩

/-- C3 amended: every taggable resource creation call issued by the two
network provisioning paths (VPC, internet gateway, subnet, route table,
security group, VPC endpoint) attaches the ownership tag
xstrapolate-managed = true and an xstrapolate-resource-type tag, while
the EC2 RunInstances call attaches only the Name and
xstrapolate-cluster tags. -/
theorem C3_amended_creation_tags (azs : List String) (region name : String)
    (outcomes : Nat → Option String) :
    (∀ e, (e ∈ (createVPCAndSubnets azs).1 ∨ e ∈ (createVPCAndSubnetsForSSM region azs).1) →
      ∀ tg, crEventTags e = some tg →
        hasTag tg managedKey "true" = true ∧
        tg.any (fun t => t.1 == "xstrapolate-resource-type") = true) ∧
    (∀ r ∈ (createEC2InstanceLoop name outcomes).1, r.tags = instanceTags name) := by
  constructor
  · intro e he tg htg
    rcases he with h | h
    · unfold createVPCAndSubnets at h
      split at h
      · simp only [List.mem_cons, List.mem_singleton, List.not_mem_nil, or_false] at h
        rcases h with rfl | rfl
        · simp only [crEventTags] at htg
          injection htg with h2
          subst h2
          exact vpcTags_ok
        · exact absurd htg (by simp [crEventTags])
      · simp only at h
        rcases List.mem_append.mp h with h | h
        · rcases List.mem_append.mp h with h | h
          · rcases List.mem_append.mp h with h | h
            · rcases List.mem_append.mp h with h | h
              · simp only [List.mem_cons, List.mem_singleton, List.not_mem_nil, or_false] at h
                rcases h with rfl | rfl
                · simp only [crEventTags] at htg
                  injection htg with h2
                  subst h2
                  exact vpcTags_ok
                · exact absurd htg (by simp [crEventTags])
              · simp only [List.mem_cons, List.mem_singleton, List.not_mem_nil, or_false] at h
                rcases h with rfl | rfl
                · simp only [crEventTags] at htg
                  injection htg with h2
                  subst h2
                  exact igwTags_ok
                · exact absurd htg (by simp [crEventTags])
            · obtain ⟨i, hi, hin⟩ := List.mem_flatMap.mp h
              simp only [List.mem_cons, List.mem_singleton, List.not_mem_nil, or_false] at hin
              rcases hin with rfl | rfl
              · simp only [crEventTags] at htg
                injection htg with h2
                subst h2
                exact publicSubnetTags_ok i
              · simp only [crEventTags] at htg
                injection htg with h2
                subst h2
                exact privateSubnetTags_ok i
          · simp only [List.mem_cons, List.mem_singleton, List.not_mem_nil, or_false] at h
            rcases h with rfl | rfl
            · simp only [crEventTags] at htg
              injection htg with h2
              subst h2
              exact rtTags_ok
            · exact absurd htg (by simp [crEventTags])
        · obtain ⟨i, hi, hin⟩ := List.mem_flatMap.mp h
          simp only [List.mem_cons, List.mem_singleton, List.not_mem_nil, or_false] at hin
          rcases hin with rfl | rfl
          · exact absurd htg (by simp [crEventTags])
          · exact absurd htg (by simp [crEventTags])
    · unfold createVPCAndSubnetsForSSM at h
      split at h
      · simp only [List.mem_cons, List.mem_singleton, List.not_mem_nil, or_false] at h
        rcases h with rfl | rfl | rfl
        · simp only [crEventTags] at htg
          injection htg with h2
          subst h2
          exact ssmVpcTags_ok
        · exact absurd htg (by simp [crEventTags])
        · exact absurd htg (by simp [crEventTags])
      · simp only at h
        rcases List.mem_append.mp h with h | h
        · rcases List.mem_append.mp h with h | h
          · simp only [List.mem_cons, List.mem_singleton, List.not_mem_nil, or_false] at h
            rcases h with rfl | rfl | rfl
            · simp only [crEventTags] at htg
              injection htg with h2
              subst h2
              exact ssmVpcTags_ok
            · exact absurd htg (by simp [crEventTags])
            · exact absurd htg (by simp [crEventTags])
          · obtain ⟨i, hi, hin⟩ := List.mem_flatMap.mp h
            simp only [List.mem_singleton] at hin
            subst hin
            simp only [crEventTags] at htg
            injection htg with h2
            subst h2
            exact ssmPrivateSubnetTags_ok i
        · unfold createSSMVPCEndpointsCalls at h
          rcases List.mem_cons.mp h with rfl | h
          · simp only [crEventTags] at htg
            injection htg with h2
            subst h2
            exact ssmSgTags_ok
          · rcases List.mem_cons.mp h with rfl | h
            · exact absurd htg (by simp [crEventTags])
            · obtain ⟨svc, hsvc, heq⟩ := List.mem_map.mp h
              rw [← heq] at htg
              simp only [crEventTags] at htg
              injection htg with h2
              subst h2
              exact ssmEndpointTags_ok svc
  · intro r hr
    have hspec := launchAux_spec name outcomes ec2MaxRetries 0 (by simp [ec2MaxRetries]) (by omega)
    have := hspec.2.2.1 r hr
    rw [this]
    rfl

theorem C3_amended_creation_tags_witness :
    hasTag vpcTags managedKey "true" = true ∧
    (ssmEndpointTags "ssm").any (fun t => t.1 == "xstrapolate-resource-type") = true := by
  refine ⟨?_, ?_⟩
  · exact ((C3_amended_creation_tags ["us-west-2a", "us-west-2b"] "us-west-2" "demo"
      (fun _ => none)).1 (CrEvent.createVpc "10.0.0.0/16" vpcTags)
      (Or.inl (by decide)) vpcTags rfl).1
  · exact ((C3_amended_creation_tags ["us-west-2a", "us-west-2b"] "us-west-2" "demo"
      (fun _ => none)).1
      (CrEvent.createVpcEndpoint ("com.amazonaws." ++ "us-west-2" ++ ".ssm")
        (ssmEndpointTags "ssm"))
      (Or.inr (by decide)) (ssmEndpointTags "ssm") rfl).2

/-- C8: when the provider reports a single availability zone, the
EKS-path network creation createVPCAndSubnets fails with the explicit
insufficient-availability-zones error (need at least 2 availability
zones) and issues no subnet-creation call; the SSM single-node path
createVPCAndSubnetsForSSM accepts the single zone, matching the spec
allowance of single-zone single-node deployments. -/
theorem C8_single_az_fail_fast (azs : List String) (region : String)
    (h : azs.length = 1) :
    (createVPCAndSubnets azs).2 = Except.error "need at least 2 availability zones" ∧
    (∀ e ∈ (createVPCAndSubnets azs).1, isCreateSubnet e = false) ∧
    (createVPCAndSubnetsForSSM region azs).2 = Except.ok () := by
  have h2 : azs.length < 2 := by omega
  have h1 : ¬ azs.length < 1 := by omega
  refine ⟨?_, ?_, ?_⟩
  · simp only [createVPCAndSubnets]
    rw [if_pos h2]
  · intro e he
    simp only [createVPCAndSubnets] at he
    rw [if_pos h2] at he
    simp only [List.mem_cons, List.mem_singleton, List.not_mem_nil, or_false] at he
    rcases he with rfl | rfl <;> rfl
  · simp only [createVPCAndSubnetsForSSM]
    rw [if_neg h1]

theorem C8_single_az_fail_fast_witness :
    (createVPCAndSubnets ["us-west-2a"]).2 =
      Except.error "need at least 2 availability zones" ∧
    isCreateSubnet (CrEvent.createVpc "10.0.0.0/16" vpcTags) = false ∧
    (createVPCAndSubnetsForSSM "us-west-2" ["us-west-2a"]).2 = Except.ok () := by
  have hmain := C8_single_az_fail_fast ["us-west-2a"] "us-west-2" (by decide)
  exact ⟨hmain.1, hmain.2.1 (CrEvent.createVpc "10.0.0.0/16" vpcTags) (by decide), hmain.2.2⟩

/- ------------------------------------------------------------------ -/
/- Teardown step control flow under failures (aws.go 1143-1218).       -/
/- ------------------------------------------------------------------ -/

/-- The steps of the DeleteCluster sweep at the granularity of the
claims: a step is one deletion action (or the per-VPC ownership check);
a failing step stands for any provider error inside it. -/
inductive Step
  | terminate (instanceId : String)
  | waitTerm (instanceId : String)
  | vpcOwnershipCheck (vpcId : String)
  | endpointsStep (vpcId : String)
  | natStep (vpcId : String)
  | igwStep (vpcId : String)
  | routeTableStep (vpcId : String)
  | secGroupStep (vpcId : String)
  | subnetStep (vpcId : String)
  | vpcDeleteStep (vpcId : String)
  | ssmIamStep
  | eksIamStep
deriving DecidableEq

/-- Outcome of one step under a failure oracle. -/
def stepResult (o : Step → Bool) (s : Step) : Except String Unit :=
  if o s then Except.error "step failed" else Except.ok ()

/-- deleteVPCResources at step granularity (aws.go 1279-1343): every
sub-step executes and its failure is only logged as a warning
(aws.go 1283-1331); only a failing final DeleteVpc makes the function
return an error (aws.go 1334-1339). The executed step list is the full
sweep regardless of the oracle. -/
def deleteVPCResourcesSteps (o : Step → Bool) (vid : String) :
    List Step × Except String Unit :=
  ([Step.endpointsStep vid, Step.natStep vid, Step.igwStep vid, Step.routeTableStep vid,
    Step.secGroupStep vid, Step.subnetStep vid, Step.vpcDeleteStep vid],
   match stepResult o (Step.vpcDeleteStep vid) with
   | Except.error e => Except.error ("failed to delete VPC: " ++ e)
   | Except.ok _ => Except.ok ())

/-- The per-VPC part of DeleteCluster (aws.go 1192-1208): the ownership
check runs first; a check failure is logged and the VPC is skipped, an
unmanaged VPC is skipped, and otherwise the sweep runs (its error is
logged as a warning by the caller). -/
def perVpcSteps (o : Step → Bool) (managed : String → Bool) (vid : String) : List Step :=
  Step.vpcOwnershipCheck vid ::
    (if o (Step.vpcOwnershipCheck vid) then []
     else if managed vid then (deleteVPCResourcesSteps o vid).1
     else [])

/-- deleteIAMResources (aws.go 1627-1643): deleteSSMRole always returns
nil after logging its warnings (aws.go 1645-1686), and any deleteEKSRole
error is logged; the function returns nil. -/
def deleteIAMResourcesSteps (_o : Step → Bool) : List Step × Except String Unit :=
  ([Step.ssmIamStep, Step.eksIamStep], Except.ok ())

/-- DeleteCluster at step granularity (aws.go 1143-1218), given the
discovered instance ids and the candidate VPC ids (discovery succeeded;
the calls after discovery never abort the sweep, so the function
returns nil whatever the oracle says). -/
def deleteClusterSteps (o : Step → Bool) (instances vpcs : List String)
    (managed : String → Bool) : List Step × Except String Unit :=
  ((instances.map Step.terminate) ++ (instances.map Step.waitTerm) ++
    (vpcs.flatMap (perVpcSteps o managed)) ++ (deleteIAMResourcesSteps o).1,
   Except.ok ())

/-- C9: teardown-step failures never abort the rest of the sweep: the
executed step list of DeleteCluster is the same under any two failure
oracles that agree on the ownership checks (so no deletion failure
removes a later step); the IAM cleanup steps always execute; every
discovered instance gets its terminate step; and in every sweep entered
for a managed VPC whose check succeeded, every sweep sub-step through
the VPC delete executes whatever fails. -/
theorem C9_sweep_continues :
    (∀ (o₁ o₂ : Step → Bool) (instances vpcs : List String) (managed : String → Bool),
      (∀ v, o₁ (Step.vpcOwnershipCheck v) = o₂ (Step.vpcOwnershipCheck v)) →
      (deleteClusterSteps o₁ instances vpcs managed).1 =
        (deleteClusterSteps o₂ instances vpcs managed).1) ∧
    (∀ (o : Step → Bool) (instances vpcs : List String) (managed : String → Bool),
      (deleteClusterSteps o instances vpcs managed).2 = Except.ok () ∧
      Step.ssmIamStep ∈ (deleteClusterSteps o instances vpcs managed).1 ∧
      Step.eksIamStep ∈ (deleteClusterSteps o instances vpcs managed).1 ∧
      (∀ i ∈ instances, Step.terminate i ∈ (deleteClusterSteps o instances vpcs managed).1) ∧
      (∀ v ∈ vpcs, o (Step.vpcOwnershipCheck v) = false → managed v = true →
        ∀ st ∈ (deleteVPCResourcesSteps o v).1,
          st ∈ (deleteClusterSteps o instances vpcs managed).1)) := by
  constructor
  · intro o₁ o₂ instances vpcs managed hagree
    have hper : ∀ v, perVpcSteps o₁ managed v = perVpcSteps o₂ managed v := by
      intro v
      unfold perVpcSteps
      rw [hagree v]
      rfl
    have hflat : vpcs.flatMap (perVpcSteps o₁ managed) =
        vpcs.flatMap (perVpcSteps o₂ managed) := by
      induction vpcs with
      | nil => rfl
      | cons v vs ih => simp only [List.flatMap_cons, hper v, ih]
    simp only [deleteClusterSteps, deleteIAMResourcesSteps, hflat]
  · intro o instances vpcs managed
    refine ⟨rfl, ?_, ?_, ?_, ?_⟩
    · simp [deleteClusterSteps, deleteIAMResourcesSteps]
    · simp [deleteClusterSteps, deleteIAMResourcesSteps]
    · intro i hi
      simp only [deleteClusterSteps, List.append_assoc, List.mem_append]
      exact Or.inl (List.mem_map.mpr ⟨i, hi, rfl⟩)
    · intro v hv hcheck hmanaged st hst
      simp only [deleteClusterSteps, List.append_assoc, List.mem_append]
      refine Or.inr (Or.inr (Or.inl (List.mem_flatMap.mpr ⟨v, hv, ?_⟩)))
      unfold perVpcSteps
      rw [hcheck, hmanaged]
      simp only [if_false, if_true, List.mem_cons]
      exact Or.inr hst

theorem C9_sweep_continues_witness :
    (deleteClusterSteps (fun st => st == Step.subnetStep "vpc-1") ["i-1"] ["vpc-1"]
        (fun _ => true)).1 =
      (deleteClusterSteps (fun _ => false) ["i-1"] ["vpc-1"] (fun _ => true)).1 ∧
    Step.ssmIamStep ∈ (deleteClusterSteps (fun st => st == Step.subnetStep "vpc-1")
      ["i-1"] ["vpc-1"] (fun _ => true)).1 ∧
    Step.vpcDeleteStep "vpc-1" ∈ (deleteClusterSteps
      (fun st => st == Step.subnetStep "vpc-1") ["i-1"] ["vpc-1"] (fun _ => true)).1 := by
  refine ⟨?_, ?_, ?_⟩
  · exact C9_sweep_continues.1 (fun st => st == Step.subnetStep "vpc-1") (fun _ => false)
      ["i-1"] ["vpc-1"] (fun _ => true) (by intro v; rfl)
  · exact (C9_sweep_continues.2 (fun st => st == Step.subnetStep "vpc-1")
      ["i-1"] ["vpc-1"] (fun _ => true)).2.1
  · exact (C9_sweep_continues.2 (fun st => st == Step.subnetStep "vpc-1")
      ["i-1"] ["vpc-1"] (fun _ => true)).2.2.2.2 "vpc-1" (by decide)
      (by decide) rfl (Step.vpcDeleteStep "vpc-1") (by decide)

/- ------------------------------------------------------------------ -/
/- Teardown command gate (cmd/cluster.go lines 82-140).                -/
/- ------------------------------------------------------------------ -/

/-- A side effect of the teardown command handler: constructing a cloud
manager (which performs credential validation) or calling
DeleteCluster. -/
inductive CmdEvent
  | constructManager (provider : String)
  | deleteClusterCall (name : String)
deriving DecidableEq

/-- The RunE handler of the teardown command (cmd/cluster.go 99-139):
an empty provider is rejected first; then, without the force flag, the
handler returns the teardown-cancelled error before the provider
switch, so no manager is constructed; with force set, the manager is
constructed for aws or azure (initResult models NewAWSManager or
NewAzureManager) and DeleteCluster is called (deleteResult models its
result). Returns the result and the issued side effects. -/
def teardownRunE (name provider : String) (force : Bool)
    (initResult : Except String Unit) (deleteResult : Except String Unit) :
    Except String Unit × List CmdEvent :=
  if provider = "" then
    (Except.error "cloud provider must be specified (--cloud aws or --cloud azure)", [])
  else if force = false then
    (Except.error "teardown cancelled - use --force to confirm", [])
  else if provider = "aws" ∨ provider = "azure" then
    match initResult with
    | Except.error e =>
      (Except.error ("failed to initialize cloud manager: " ++ e),
       [CmdEvent.constructManager provider])
    | Except.ok _ =>
      match deleteResult with
      | Except.error e =>
        (Except.error ("failed to teardown cluster: " ++ e),
         [CmdEvent.constructManager provider, CmdEvent.deleteClusterCall name])
      | Except.ok _ =>
        (Except.ok (), [CmdEvent.constructManager provider, CmdEvent.deleteClusterCall name])
  else (Except.error ("unsupported cloud provider: " ++ provider), [])

/-- C10: for every cluster name and provider, the teardown handler with
the force flag unset returns an error and issues no side effect at all
(no manager construction, hence no credential validation and no
DeleteCluster call); whenever a provider was supplied the error is the
teardown-cancelled one. -/
theorem C10_teardown_requires_force (name provider : String)
    (initResult deleteResult : Except String Unit) :
    (teardownRunE name provider false initResult deleteResult).2 = [] ∧
    (∃ msg, (teardownRunE name provider false initResult deleteResult).1 =
      Except.error msg) ∧
    (provider ≠ "" →
      (teardownRunE name provider false initResult deleteResult).1 =
        Except.error "teardown cancelled - use --force to confirm") := by
  by_cases h : provider = ""
  · refine ⟨by simp [teardownRunE, h],
      ⟨"cloud provider must be specified (--cloud aws or --cloud azure)",
        by simp [teardownRunE, h]⟩, ?_⟩
    intro hne
    exact absurd h hne
  · exact ⟨by simp [teardownRunE, h],
      ⟨"teardown cancelled - use --force to confirm", by simp [teardownRunE, h]⟩,
      fun _ => by simp [teardownRunE, h]⟩

theorem C10_teardown_requires_force_witness :
    (teardownRunE "demo" "aws" false (Except.ok ()) (Except.ok ())).1 =
      Except.error "teardown cancelled - use --force to confirm" ∧
    (teardownRunE "demo" "aws" false (Except.ok ()) (Except.ok ())).2 = [] := by
  have h := C10_teardown_requires_force "demo" "aws" (Except.ok ()) (Except.ok ())
  exact ⟨h.2.2 (by decide), h.1⟩
